import Mathlib

/-!
Verification of the LightRAG-Cruise repository.

The Python code is shallowly embedded: Python `str` becomes `List Char`
(so that lemmas about slicing, stripping and splitting can be proved by
structural recursion), Python `dict` becomes an insertion-ordered
association list, fallible Python operations return `Except`, and the
numeric types become `Int`/`ℚ`.  The embedded functions mirror
`src/helpers/parser.py` and `src/lightrag/CruiseRag.py` line by line.
-/

namespace Cruise

set_option maxHeartbeats 1000000
set_option maxRecDepth 100000

/-- Embedding of Python `str`: a list of characters. -/
abbrev PyStr := List Char

/-- Convenience conversion from a Lean string literal to the embedded type. -/
def chars (s : String) : PyStr := s.toList

/-- Characters stripped by Python `str.strip()` (ASCII core of Python's
whitespace set; the inputs in this repository are ASCII). -/
def pyIsSpace (c : Char) : Bool :=
  c = ' ' || c = '\t' || c = '\n' || c = '\r' || c = '\x0b' || c = '\x0c'

/-- Left part of Python `str.strip()`. -/
def pyStripLeft (s : PyStr) : PyStr := s.dropWhile pyIsSpace

/-- Right part of Python `str.strip()`. -/
def pyStripRight (s : PyStr) : PyStr := (s.reverse.dropWhile pyIsSpace).reverse

/-- Python `str.strip()`. -/
def pyStrip (s : PyStr) : PyStr := pyStripRight (pyStripLeft s)

/-- Python `str.split('\n')`: splits at every newline, keeping empty pieces;
`''.split('\n') == ['']`. -/
def pySplitNL : PyStr → List PyStr
  | [] => [[]]
  | c :: rest =>
    if c = '\n' then [] :: pySplitNL rest
    else
      match pySplitNL rest with
      | [] => [[c]]
      | l :: ls => (c :: l) :: ls

/-- Split at the first occurrence of the (non-empty) separator `sep`:
`some (before, after)` when `sep` occurs, `none` otherwise.  This models both
Python's `sep in s` test (`isSome`) and `s.split(sep, 1)`. -/
def pySplitFirst (sep : PyStr) : PyStr → Option (PyStr × PyStr)
  | [] => none
  | c :: rest =>
    if sep.isPrefixOf (c :: rest) then some ([], (c :: rest).drop sep.length)
    else
      match pySplitFirst sep rest with
      | none => none
      | some (a, b) => some (c :: a, b)

/-- Python `sep in s` for a non-empty separator. -/
def hasSubstr (sep s : PyStr) : Bool := (pySplitFirst sep s).isSome

/-- Python `str.lower()` (ASCII core). -/
def pyLower (s : PyStr) : PyStr := s.map Char.toLower

/-- ASCII digit test. -/
def isAsciiDigit (c : Char) : Bool := '0' ≤ c && c ≤ '9'

/-- Numeric value of an ASCII digit. -/
def digitVal (c : Char) : Nat := c.toNat - 48

/-- Consume a Python digit group `digit (("_")? digit)*` (single underscores
are allowed between digits, as in CPython); `afterUnd` records that the
previous character was an underscore.  Returns the accumulated value and
the number of digits consumed. -/
def digitsGo (acc cnt : Nat) (afterUnd : Bool) : PyStr → Option (Nat × Nat)
  | [] => if afterUnd then none else some (acc, cnt)
  | c :: rest =>
    if isAsciiDigit c then digitsGo (acc * 10 + digitVal c) (cnt + 1) false rest
    else if c = '_' && !afterUnd then digitsGo acc cnt true rest
    else none

/-- A complete Python digit group: non-empty, starts with a digit. -/
def digitsU (s : PyStr) : Option (Nat × Nat) :=
  match s with
  | c :: rest => if isAsciiDigit c then digitsGo (digitVal c) 1 false rest else none
  | [] => none

/-- Optional sign prefix, as accepted by Python `int()`/`float()`. -/
def parseSign : PyStr → (Int × PyStr)
  | '+' :: r => (1, r)
  | '-' :: r => (-1, r)
  | s => (1, s)

/-- Python `int(s)` for a decimal string: strip whitespace, optional sign,
then a digit group.  (Non-ASCII digit forms are outside the model.)
`none` models a raised `ValueError`. -/
def pyInt (s : PyStr) : Option Int :=
  let t := pyStrip s
  let (sg, t1) := parseSign t
  match digitsU t1 with
  | some (n, _) => some (sg * n)
  | none => none

/-- `10^ex` over ℚ for an integer exponent, by cases on the sign. -/
def ratPow10 (ex : Int) : ℚ :=
  match ex with
  | .ofNat n => (10 : ℚ) ^ n
  | .negSucc n => 1 / (10 : ℚ) ^ (n + 1)

/-- Split at the first character satisfying `p` (that character is dropped). -/
def findCharSplit (p : Char → Bool) : PyStr → Option (PyStr × PyStr)
  | [] => none
  | c :: rest =>
    if p c then some ([], rest)
    else
      match findCharSplit p rest with
      | none => none
      | some (a, b) => some (c :: a, b)

/-- Python `float(s)` for finite decimal/scientific literals, with the value
modelled as an exact rational (IEEE-754 rounding is not modelled; no claim
depends on the rounded value, only on parse success and on exactly
representable literals).  The `inf`/`nan` word forms are omitted: they contain
no `'.'`, and the only call site guards the call with `'.' in value`.
`none` models a raised `ValueError`. -/
def pyFloatFinite (s : PyStr) : Option ℚ :=
  let t := pyStrip s
  let (sg, t1) := parseSign t
  let (mant, expPart) :=
    match findCharSplit (fun c => c = 'e' || c = 'E') t1 with
    | some (m, e) => (m, some e)
    | none => (t1, none)
  let expVal : Option Int :=
    match expPart with
    | none => some 0
    | some ep =>
      let (esg, ed) := parseSign ep
      match digitsU ed with
      | some (n, _) => some (esg * n)
      | none => none
  match expVal with
  | none => none
  | some ex =>
    match findCharSplit (fun c => c = '.') mant with
    | none =>
      match digitsU mant with
      | some (n, _) => some ((sg : ℚ) * n * ratPow10 ex)
      | none => none
    | some (ipart, fpart) =>
      if fpart.contains '.' then none
      else if ipart.isEmpty && fpart.isEmpty then none
      else
        let iv : Option (Nat × Nat) := if ipart.isEmpty then some (0, 0) else digitsU ipart
        let fv : Option (Nat × Nat) := if fpart.isEmpty then some (0, 0) else digitsU fpart
        match iv, fv with
        | some (i, _), some (f, fc) =>
          some ((sg : ℚ) * ((i : ℚ) + (f : ℚ) / (10 : ℚ) ^ fc) * ratPow10 ex)
        | _, _ => none

/-- The values that `parse_description`'s declared return type
`Dict[str, Union[str, List[str], bool, float, int]]` admits.  The `list`
constructor is present because the declared type admits it; the parser in
fact never produces it (proved below). -/
inductive Value where
  | str (s : PyStr)
  | bool (b : Bool)
  | int (n : Int)
  | float (q : ℚ)
  | list (l : List PyStr)
deriving DecidableEq, Repr

/-- The parsed mapping: an insertion-ordered association list, the embedding
of the Python `dict` built by `parse_description`. -/
abbrev Parsed := List (PyStr × Value)

/-- Python `data[key] = value`: overwrite in place if the key exists,
append otherwise (insertion order preserved). -/
def dictSet (d : Parsed) (k : PyStr) (v : Value) : Parsed :=
  match d with
  | [] => [(k, v)]
  | (k', v') :: rest => if k' = k then (k, v) :: rest else (k', v') :: dictSet rest k v

/-- Python `data.get(key)`: the value at `key`, if present. -/
def dictGet (d : Parsed) (k : PyStr) : Option Value :=
  match d with
  | [] => none
  | (k', v') :: rest => if k' = k then some v' else dictGet rest k

/-- Python `data.get(key, default)`. -/
def dictGetD (d : Parsed) (k : PyStr) (v₀ : Value) : Value := (dictGet d k).getD v₀

/-- The static multiline-field set of `parse_description`
(src/helpers/parser.py lines 15-18). -/
def multiline_keys : List PyStr :=
  [chars "Description", chars "Unique Features", chars "Reasons To Book",
   chars "Loyalty Program", chars "Ships In Fleet", chars "Accommodation Overview",
   chars "Cabin Types", chars "Deck Plans", chars "Dining Venues",
   chars "Entertainment & Activities", chars "Health & Fitness",
   chars "Accessibility & Special Needs", chars "Itinerary Details",
   chars "Available Fares"]

/-- The type-coercion chain of `parse_description` (parser.py lines 32-45):
case-insensitive `true`/`false` first, then `float` when the value contains
a `'.'`, otherwise `int`; a `ValueError` from either conversion is caught
and the original stripped string is stored. -/
def coerceValue (value : PyStr) : Value :=
  if pyLower value = chars "true" then .bool true
  else if pyLower value = chars "false" then .bool false
  else if value.contains '.' then
    match pyFloatFinite value with
    | some q => .float q
    | none => .str value
  else
    match pyInt value with
    | some n => .int n
    | none => .str value

/-- State of the line loop of `parse_description`: the dictionary built so
far and the `current_key` variable. -/
structure ParseState where
  data : Parsed
  currentKey : Option PyStr
deriving DecidableEq, Repr

/-- The `else` branch of the line loop (parser.py lines 46-48): a line with
no `': '` extends the most recently opened multiline field in place, when one
is open (Python truthiness: an empty-string key would also be skipped) and
its current value is a string; otherwise the line is silently dropped. -/
def continueLine (st : ParseState) (line : PyStr) : ParseState :=
  match st.currentKey with
  | some ck =>
    if ck = [] then st
    else
      match dictGet st.data ck with
      | some (.str s) => ⟨dictSet st.data ck (.str (s ++ ' ' :: line)), st.currentKey⟩
      | _ => st
  | none => st

/-- One iteration of the `for line in ...` loop of `parse_description`
(parser.py lines 20-48). -/
def processLine (st : ParseState) (rawLine : PyStr) : ParseState :=
  let line := pyStrip rawLine
  if line = [] then st
  else
    match pySplitFirst (chars ": ") line with
    | some (k, v) =>
      let key := pyStrip k
      let value := pyStrip v
      if multiline_keys.contains key then
        ⟨dictSet st.data key (.str value), some key⟩
      else
        ⟨dictSet st.data key (coerceValue value), st.currentKey⟩
    | none => continueLine st line

/-- `parse_description` (src/helpers/parser.py lines 3-50): strip the whole
input, split into physical lines, and fold the line loop from the empty
dictionary with no current key. -/
def parse_description (description : PyStr) : Parsed :=
  ((pySplitNL (pyStrip description)).foldl processLine ⟨[], none⟩).data

/-! ### Exception-level model of the parser

`parse_description` contains two operations that can raise in Python —
`float(value)` and `int(value)` — both inside a `try` whose handler catches
exactly `ValueError`.  The definitions below re-run the parser in an
`Except` monad in which those conversions raise, and model the handler;
the theorem for C1 shows the run always succeeds. -/

/-- The Python exceptions relevant to this repository. -/
inductive PyExc where
  | valueError
  | typeError
  | attributeError
  | keyError (k : PyStr)
deriving DecidableEq, Repr

deriving instance DecidableEq for Except

/-- `float(value)` as a raising operation. -/
def floatOrRaise (s : PyStr) : Except PyExc ℚ :=
  match pyFloatFinite s with
  | some q => .ok q
  | none => .error .valueError

/-- `int(value)` as a raising operation. -/
def intOrRaise (s : PyStr) : Except PyExc Int :=
  match pyInt s with
  | some n => .ok n
  | none => .error .valueError

/-- The coercion chain with the `try`/`except ValueError` modelled
explicitly: the handler turns exactly a `ValueError` into storing the
stripped string; any other exception would propagate. -/
def coerceValueE (value : PyStr) : Except PyExc Value :=
  if pyLower value = chars "true" then .ok (.bool true)
  else if pyLower value = chars "false" then .ok (.bool false)
  else
    match
      (if value.contains '.' then Value.float <$> floatOrRaise value
       else Value.int <$> intOrRaise value) with
    | .ok v => .ok v
    | .error .valueError => .ok (.str value)
    | .error e => .error e

/-- One loop iteration, in the exception model. -/
def processLineE (st : ParseState) (rawLine : PyStr) : Except PyExc ParseState :=
  let line := pyStrip rawLine
  if line = [] then .ok st
  else
    match pySplitFirst (chars ": ") line with
    | some (k, v) =>
      let key := pyStrip k
      let value := pyStrip v
      if multiline_keys.contains key then
        .ok ⟨dictSet st.data key (.str value), some key⟩
      else do
        let cv ← coerceValueE value
        .ok ⟨dictSet st.data key cv, st.currentKey⟩
    | none => .ok (continueLine st line)

/-- `parse_description`, in the exception model. -/
def parse_descriptionE (description : PyStr) : Except PyExc Parsed := do
  let st ← (pySplitNL (pyStrip description)).foldlM processLineE ⟨[], none⟩
  .ok st.data

/-! ### The `ingest_cruise` ingestion function (src/lightrag/CruiseRag.py)

Python values stored inside the `cruise_data` dictionary are embedded as
`PyVal`; dictionaries are insertion-ordered association lists. -/

/-- Embedding of the Python values a `cruise_data` record may hold. -/
inductive PyVal where
  | str (s : PyStr)
  | int (n : Int)
  | float (q : ℚ)
  | bool (b : Bool)
  | list (xs : List PyVal)
  | dict (d : List (PyStr × PyVal))
  | none

/-- Embedding of the `cruise_data` dictionary argument. -/
abbrev CruiseData := List (PyStr × PyVal)

/-- Python `key in d` for a dictionary. -/
def cdHasKey (d : CruiseData) (k : PyStr) : Bool :=
  match d with
  | [] => false
  | (k', _) :: rest => k' = k || cdHasKey rest k

/-- Python `d[key]`: `KeyError` when absent. -/
def cdSub (d : CruiseData) (k : PyStr) : Except PyExc PyVal :=
  match d with
  | [] => .error (.keyError k)
  | (k', v) :: rest => if k' = k then .ok v else cdSub rest k

/-- Python `d.get(key, default)` on the top-level dictionary. -/
def cdGetD (d : CruiseData) (k : PyStr) (v₀ : PyVal) : PyVal :=
  match d with
  | [] => v₀
  | (k', v) :: rest => if k' = k then v else cdGetD rest k v₀

/-- Python truthiness of a value. -/
def pyTruthy : PyVal → Bool
  | .str s => !s.isEmpty
  | .int n => n != 0
  | .float q => q != 0
  | .bool b => b
  | .list xs => !xs.isEmpty
  | .dict d => !d.isEmpty
  | .none => false

/-- Python `v.get(key, default)` on a value expected to be a dictionary:
`AttributeError` when `v` has no `get` attribute. -/
def pyGetDV (v : PyVal) (k : PyStr) (v₀ : PyVal) : Except PyExc PyVal :=
  match v with
  | .dict d => .ok (cdGetD d k v₀)
  | _ => .error .attributeError

/-- Python `v[key]` for a string key on a value expected to be a dictionary:
`KeyError` when the key is absent, `TypeError` when `v` is not a dictionary. -/
def pySubV (v : PyVal) (k : PyStr) : Except PyExc PyVal :=
  match v with
  | .dict d => cdSub d k
  | _ => .error .typeError

/-- Python `for x in v`: the element sequence of an iterable value
(`TypeError` otherwise; iterating a string yields its one-character strings,
iterating a dictionary yields its keys). -/
def asIterList : PyVal → Except PyExc (List PyVal)
  | .list xs => .ok xs
  | .str s => .ok (s.map (fun c => PyVal.str [c]))
  | .dict d => .ok (d.map (fun kv => PyVal.str kv.1))
  | _ => .error .typeError

/-- Decimal digits of a natural number (fuel-based so that the definition
is structural and kernel-reducible; `fuel ≥ n+1` always suffices). -/
def natDigitsAux : Nat → Nat → PyStr
  | 0, _ => []
  | fuel + 1, n =>
    if n < 10 then [Char.ofNat (48 + n)]
    else natDigitsAux fuel (n / 10) ++ [Char.ofNat (48 + n % 10)]

/-- Python `str(n)` for a natural number. -/
def natRepr (n : Nat) : PyStr := natDigitsAux (n + 1) n

/-- Python `str(n)` for an integer. -/
def intRepr (n : Int) : PyStr :=
  if n < 0 then '-' :: natRepr (-n).toNat else natRepr n.toNat

/-- Smallest `k ≤ fuel` such that `q * 10^k` is an integer. -/
def decExpand : Nat → ℚ → Option Nat
  | 0, q => if q.den = 1 then some 0 else Option.none
  | fuel + 1, q => if q.den = 1 then some 0 else (decExpand fuel (q * 10)).map (· + 1)

/-- Decimal rendering of a non-negative rational with terminating
expansion. -/
def floatReprNN (q : ℚ) : PyStr :=
  match decExpand 1100 q with
  | some 0 => natRepr q.num.toNat ++ chars ".0"
  | some (k + 1) =>
    let digits := natRepr (q * (10 : ℚ) ^ (k + 1)).num.toNat
    let padded := List.replicate (k + 2 - digits.length) '0' ++ digits
    padded.take (padded.length - (k + 1)) ++ '.' :: padded.drop (padded.length - (k + 1))
  | Option.none => natRepr q.num.toNat

/-- Python `str(x)` for a float, modelled as the terminating decimal
expansion of the exact rational (Python's shortest-round-trip repr of the
IEEE double is not modelled; no claim formats a float field). -/
def floatRepr (q : ℚ) : PyStr :=
  if q < 0 then '-' :: floatReprNN (-q) else floatReprNN q

/-- Python `str()`/f-string conversion of a value, with containers rendered
by a depth-bounded repr (approximate: no string escaping; no code path used
by any claim formats a container or a float). -/
def pyReprFuel : Nat → PyVal → PyStr
  | 0, _ => chars "..."
  | _ + 1, .str s => '\'' :: s ++ ['\'']
  | _ + 1, .int n => intRepr n
  | _ + 1, .float q => floatRepr q
  | _ + 1, .bool b => chars (if b then "True" else "False")
  | _ + 1, .none => chars "None"
  | fuel + 1, .list xs =>
    '[' :: List.intercalate (chars ", ") (xs.map (pyReprFuel fuel)) ++ [']']
  | fuel + 1, .dict d =>
    chars "\x7b" ++
      List.intercalate (chars ", ")
        (d.map (fun kv => '\'' :: kv.1 ++ chars "': " ++ pyReprFuel fuel kv.2)) ++
      chars "\x7d"

/-- Python `str(v)` as used by an f-string hole. -/
def pyStrOf : PyVal → PyStr
  | .str s => s
  | .int n => intRepr n
  | .float q => floatRepr q
  | .bool b => chars (if b then "True" else "False")
  | .none => chars "None"
  | v => pyReprFuel 100 v

/-- Python `sep.join(v)`: `TypeError` unless `v` is an iterable of strings. -/
def pyJoin (sep : PyStr) (v : PyVal) : Except PyExc PyStr :=
  match v with
  | .str s => .ok (List.intercalate sep (s.map (fun c => [c])))
  | .dict d => .ok (List.intercalate sep (d.map (fun kv => kv.1)))
  | .list xs =>
    match xs.mapM (fun x => match x with | PyVal.str s => some s | _ => Option.none) with
    | some strs => .ok (List.intercalate sep strs)
    | Option.none => .error .typeError
  | _ => .error .typeError

/-- `CruiseRAG._safe_get` (CruiseRag.py, bottom): `data.get(key, '')`,
filtered back to the default unless the value is a `str`/`int`/`float`
(a Python `bool` is an `int` instance and passes the filter). -/
def safe_get (data : PyVal) (key : PyStr) : Except PyExc PyVal := do
  let value ← pyGetDV data key (.str [])
  pure
    (match value with
     | .str _ | .int _ | .float _ | .bool _ => value
     | _ => PyVal.str [])

/-- `html.unescape` applied to a value.  The spec declares HTML unescaping
an out-of-scope external collaborator; it is modelled as the identity on
strings (no claim exercises entity references) and as a raise on
non-strings. -/
def pyUnescape : PyVal → Except PyExc PyStr
  | .str s => .ok s
  | _ => .error .typeError

/-- `CruiseRAG._format_fares`: one fare entry (16-space indentation inside
the f-string, exactly as in the source). -/
def formatFare (fare : PyVal) : Except PyExc PyStr := do
  let gradeName ← pySubV fare (chars "grade_name")
  let gradeCode ← pySubV fare (chars "grade_code")
  let price ← pySubV fare (chars "price")
  let priceSingle ← pyGetDV fare (chars "price_single") (.str (chars "N/A"))
  let flightPrice ← pyGetDV fare (chars "flight_price") (.str (chars "N/A"))
  let price34 ← pyGetDV fare (chars "price_3_4_pax") (.str (chars "N/A"))
  let flightPrice34 ← pyGetDV fare (chars "flight_price_3_4_pax") (.str (chars "N/A"))
  let avail ← pyGetDV fare (chars "availability") (.str [])
  let nonComm ← pyGetDV fare (chars "non_comm_charges") (.int 0)
  pure
    (chars "\n                Grade: " ++ pyStrOf gradeName ++ chars " (" ++
       pyStrOf gradeCode ++
     chars ")\n                Base Price: $" ++ pyStrOf price ++
     chars "\n                Single Price: $" ++ pyStrOf priceSingle ++
     chars "\n                Flight Price: $" ++ pyStrOf flightPrice ++
     chars "\n                3rd/4th Guest Price: $" ++ pyStrOf price34 ++
     chars "\n                Flight Price (3rd/4th): $" ++ pyStrOf flightPrice34 ++
     chars "\n                Availability: " ++ pyStrOf avail ++
     chars "\n                Non-Comm Charges: $" ++ pyStrOf nonComm ++
     chars "\n                ")

/-- `CruiseRAG._format_fares`: formats the fares whose `price` is truthy and
joins them with newlines. -/
def formatFares (fares : PyVal) : Except PyExc PyStr := do
  let xs ← asIterList fares
  let pick ← xs.filterMapM
    (fun fare => do
      let p ← pyGetDV fare (chars "price") PyVal.none
      if pyTruthy p then do
        let s ← formatFare fare
        pure (some s)
      else
        pure Option.none)
  pure (List.intercalate (chars "\n") pick)

/-- `CruiseRAG._format_fare_sets`: one entry per fare set (12-space
indentation), joined with newlines. -/
def formatFareSet (fareSet : PyVal) : Except PyExc PyStr := do
  let name ← pySubV fareSet (chars "name")
  let dealCode ← pySubV fareSet (chars "deal_code")
  let airport ← pyGetDV fareSet (chars "airport") (.str (chars "Any"))
  let portCharge ← pyGetDV fareSet (chars "port_charge") (.int 0)
  let fares ← formatFares (← pyGetDV fareSet (chars "fares") (.list []))
  pure
    (chars "\n            Deal: " ++ pyStrOf name ++
     chars "\n            Code: " ++ pyStrOf dealCode ++
     chars "\n            Airport: " ++ pyStrOf airport ++
     chars "\n            Port Charge: $" ++ pyStrOf portCharge ++
     chars "\n            \n            Available Cabins:\n            " ++ fares ++
     chars "\n            ")

/-- `CruiseRAG._format_fare_sets`. -/
def formatFareSets (fareSets : PyVal) : Except PyExc PyStr := do
  let xs ← asIterList fareSets
  let pieces ← xs.mapM formatFareSet
  pure (List.intercalate (chars "\n") pieces)

/-- One stop of `CruiseRAG._format_detailed_itinerary` (12-space
indentation in the source f-string). -/
def formatItineraryStop (stop : PyVal) : Except PyExc PyStr := do
  let port ← pyGetDV stop (chars "port") (.dict [])
  let summary ← safe_get port (chars "summary")
  let day ← safe_get stop (chars "day")
  let pname ← safe_get port (chars "name")
  let country ← safe_get port (chars "country")
  let unlocode ← safe_get port (chars "unlocode")
  let lat ← safe_get port (chars "latitude")
  let lon ← safe_get port (chars "longitude")
  let arrives ← safe_get stop (chars "arrives_on")
  let departs ← safe_get stop (chars "departs_on")
  let about ← pyUnescape summary
  let programme ← safe_get stop (chars "programme")
  let notes ← safe_get stop (chars "notes")
  pure
    (chars "\n            Day " ++ pyStrOf day ++ chars ": " ++ pyStrOf pname ++
     chars ", " ++ pyStrOf country ++
     chars "\n            Port Code: " ++ pyStrOf unlocode ++
     chars "\n            Location: " ++ pyStrOf lat ++ chars ", " ++ pyStrOf lon ++
     chars "\n            Arrival: " ++ pyStrOf arrives ++
     chars "\n            Departure: " ++ pyStrOf departs ++
     chars "\n            About: " ++ about ++
     chars "\n            Programme: " ++ pyStrOf programme ++
     chars "\n            Notes: " ++ pyStrOf notes ++
     chars "\n            ")

/-- `CruiseRAG._format_detailed_itinerary`. -/
def formatDetailedItinerary (itinerary : PyVal) : Except PyExc PyStr := do
  if !pyTruthy itinerary then
    pure (chars "No itinerary details available.")
  else do
    let stops ← asIterList itinerary
    let pieces ← stops.mapM formatItineraryStop
    pure (List.intercalate (chars "\n") pieces)

/-- The `description` string built by `ingest_cruise` (CruiseRag.py lines
136-186): the main f-string, the conditional itinerary block, and the
trailing fares/airports f-string, transcribed with the source's exact
indentation. -/
def formatCruise (cruise_data : CruiseData) : Except PyExc PyStr := do
  let detailed_itinerary := cdGetD cruise_data (chars "detailed_itinerary") (.list [])
  let name ← cdSub cruise_data (chars "name")
  let ref ← cdSub cruise_data (chars "ref")
  let nights ← cdSub cruise_data (chars "cruise_nights")
  let typeJ ← pyJoin (chars ", ") (← cdSub cruise_data (chars "cruise_type"))
  let regionsJ ← pyJoin (chars ", ") (← cdSub cruise_data (chars "regions"))
  let startsAt ← cdSub cruise_data (chars "starts_at")
  let startsOn ← cdSub cruise_data (chars "starts_on")
  let endsAt ← cdSub cruise_data (chars "ends_at")
  let endsOn ← cdSub cruise_data (chars "ends_on")
  let vacationDays := cdGetD cruise_data (chars "vacation_days") (.str [])
  let hotelNights := cdGetD cruise_data (chars "hotel_nights") (.int 0)
  let postCruise := cdGetD cruise_data (chars "post_cruise") (.int 0)
  let shipTitle ← cdSub cruise_data (chars "ship_title")
  let operatorTitle ← cdSub cruise_data (chars "operator_title")
  let rating := cdGetD cruise_data (chars "rating") (.str [])
  let cruiseOnly := cdGetD cruise_data (chars "cruise_only_price") (.str [])
  let flyCruise := cdGetD cruise_data (chars "fly_cruise_price") (.str [])
  let inside := cdGetD cruise_data (chars "inside_price") (.str [])
  let outside := cdGetD cruise_data (chars "outside_price") (.str [])
  let balcony := cdGetD cruise_data (chars "balcony_price") (.str [])
  let suite := cdGetD cruise_data (chars "suite_price") (.str [])
  let base :=
    chars "\n        CRUISE ITINERARY\n        Name: " ++ pyStrOf name ++
    chars "\n        Reference: " ++ pyStrOf ref ++
    chars "\n        Duration: " ++ pyStrOf nights ++
    chars " nights\n        Type: " ++ typeJ ++
    chars "\n        Regions: " ++ regionsJ ++
    chars "\n\n        Schedule:\n        Departure: From " ++ pyStrOf startsAt ++
    chars " on " ++ pyStrOf startsOn ++
    chars "\n        Return: To " ++ pyStrOf endsAt ++
    chars " on " ++ pyStrOf endsOn ++
    chars "\n        Vacation Days: " ++ pyStrOf vacationDays ++
    chars "\n        Hotel Nights: " ++ pyStrOf hotelNights ++
    chars "\n        Post Cruise Stay: " ++ pyStrOf postCruise ++
    chars "\n\n        Ship: " ++ pyStrOf shipTitle ++
    chars "\n        Operator: " ++ pyStrOf operatorTitle ++
    chars "\n        Rating: " ++ pyStrOf rating ++
    chars "\n\n        Pricing:\n        Cruise Only From: $" ++ pyStrOf cruiseOnly ++
    chars "\n        Fly Cruise From: $" ++ pyStrOf flyCruise ++
    chars "\n        Inside Cabins From: $" ++ pyStrOf inside ++
    chars "\n        Outside Cabins From: $" ++ pyStrOf outside ++
    chars "\n        Balcony Cabins From: $" ++ pyStrOf balcony ++
    chars "\n        Suites From: $" ++ pyStrOf suite ++
    chars "\n\n        "
  let mid ←
    if pyTruthy detailed_itinerary then do
      let iti ← formatDetailedItinerary detailed_itinerary
      pure (chars "\n            Itinerary Details:\n            " ++ iti ++
            chars "\n            ")
    else
      pure (chars "Itinerary Details: Not available.\n")
  let fareFmt ← formatFareSets (cdGetD cruise_data (chars "fare_sets") (.list []))
  let airportsJ ← pyJoin (chars ", ") (cdGetD cruise_data (chars "airports") (.list []))
  pure
    (base ++ mid ++
     chars "\n        Available Fares:\n        " ++ fareFmt ++
     chars "\n\n        Departure Airports: " ++ airportsJ ++
     chars "\n        ")

/-- The errors `ingest_cruise` can raise: the explicit
`KeyError(f"Missing required keys in cruise_data: ...")` carrying the list
of missing keys, or an exception escaping from the formatting itself.
(The `TypeError` for a non-dictionary argument is unrepresentable here:
the embedded argument is a dictionary by type.) -/
inductive IngestErr where
  | keyError (missing : List PyStr)
  | pyExc (e : PyExc)
deriving DecidableEq, Repr

/-- The `required_keys` list of `ingest_cruise` (CruiseRag.py lines
128-133), in source order. -/
def required_keys : List PyStr :=
  [chars "name", chars "ref", chars "cruise_nights", chars "cruise_type",
   chars "regions", chars "starts_at", chars "starts_on", chars "ends_at",
   chars "ends_on", chars "ship_title", chars "operator_title",
   chars "fare_sets"]

/-- `missing_keys = [key for key in required_keys if key not in cruise_data]`. -/
def missingKeys (cruise_data : CruiseData) : List PyStr :=
  required_keys.filter (fun k => !cdHasKey cruise_data k)

/-- `ingest_cruise` (CruiseRag.py lines 124-186): fail fast on missing
required keys, otherwise build the description and hand it to the external
service; the returned list is the sequence of `rag.insert` payloads. -/
def ingest_cruise (cruise_data : CruiseData) : Except IngestErr (List PyStr) :=
  let missing := missingKeys cruise_data
  if !missing.isEmpty then .error (.keyError missing)
  else
    match formatCruise cruise_data with
    | .ok desc => .ok [desc]
    | .error e => .error (.pyExc e)

/-! ### The search facet filter (CruiseRag.py lines 224-232)

The post-query predicate applied to each parsed result.  Python's dynamic
comparisons are modelled exactly: `<=` works between two strings
(lexicographic by code point) or between two numbers (`bool` counts as a
number), and raises `TypeError` otherwise; `==` never raises; `and` chains
and the chained comparison `a <= x <= b` short-circuit. -/

/-- Lexicographic `<=` on Python strings (by code point). -/
def strLE : PyStr → PyStr → Bool
  | [], _ => true
  | _ :: _, [] => false
  | a :: as_, b :: bs =>
    if a.toNat < b.toNat then true
    else if b.toNat < a.toNat then false
    else strLE as_ bs

/-- The numeric reading of a parsed value, when it has one (a Python `bool`
is a number). -/
def numVal : Value → Option ℚ
  | .int n => some (n : ℚ)
  | .float q => some q
  | .bool b => some (if b then 1 else 0)
  | _ => Option.none

/-- Python `a <= b` on parsed values.  (A Python list-to-list comparison is
also defined in Python; it is left out because `parse_description` never
produces a list value — see the values invariant — and the caller-supplied
bounds are never lists.) -/
def pyLE (a b : Value) : Except PyExc Bool :=
  match a, b with
  | .str x, .str y => .ok (strLE x y)
  | a, b =>
    match numVal a, numVal b with
    | some x, some y => .ok (decide (x ≤ y))
    | _, _ => .error .typeError

/-- Python `a == b` on parsed values (never raises; numeric kinds compare by
value across `int`/`float`/`bool`). -/
def pyEq (a b : Value) : Bool :=
  match a, b with
  | .str x, .str y => x = y
  | .list x, .list y => x = y
  | a, b =>
    match numVal a, numVal b with
    | some x, some y => x = y
    | _, _ => false

/-- Python's chained comparison `a <= x <= b`: the second comparison is
evaluated only when the first succeeds and is true. -/
def pyChain3 (a x b : Value) : Except PyExc Bool := do
  let first ← pyLE a x
  if first then pyLE x b else pure false

/-- Python `s.split(sep)` with no limit, via a length-bounded loop (the
remainder shrinks at every split, so the input length is enough fuel). -/
def pySplitAllFuel (sep : PyStr) : Nat → PyStr → List PyStr
  | 0, s => [s]
  | fuel + 1, s =>
    match pySplitFirst sep s with
    | some (a, b) => a :: pySplitAllFuel sep fuel b
    | Option.none => [s]

/-- Python `s.split(sep)`; always returns a non-empty list. -/
def pySplitAll (sep s : PyStr) : List PyStr := pySplitAllFuel sep s.length s

/-- `v.split(', ')[-1]` needs a string receiver: `AttributeError`
otherwise. -/
def strAttr : Value → Except PyExc PyStr
  | .str s => .ok s
  | _ => .error .attributeError

/-- The caller-supplied facet bounds of `CruiseRAG.search`, with their
declared Python types. -/
structure SearchBounds where
  departure_date_lower : PyStr
  departure_date_upper : PyStr
  duration_lower : Int
  duration_upper : Int
  price_lower : ℚ
  price_upper : ℚ
  cruise_lines : List PyStr
  departure_ports : List PyStr
  adults_only : Bool
deriving DecidableEq, Repr

/-- The filter condition of the `filtered_results` comprehension
(CruiseRag.py lines 225-232), applied to one parsed result, with Python's
left-to-right short-circuit over the six `and`-separated clauses. -/
def acceptResult (b : SearchBounds) (result : Parsed) : Except PyExc Bool := do
  let c1 ← pyChain3 (.str b.departure_date_lower)
             (dictGetD result (chars "Departure Date") (.str []))
             (.str b.departure_date_upper)
  if c1 then do
    let c2 ← pyChain3 (.int b.duration_lower)
               (dictGetD result (chars "Duration") (.int 0))
               (.int b.duration_upper)
    if c2 then do
      let c3 ← pyChain3 (.float b.price_lower)
                 (dictGetD result (chars "Cruise Only From") (.int 0))
                 (.float b.price_upper)
      if c3 then do
        let cls ← strAttr (dictGetD result (chars "Cruise Lines") (.str []))
        if b.cruise_lines.contains ((pySplitAll (chars ", ") cls).getLast!) then do
          let dps ← strAttr (dictGetD result (chars "Departure Ports") (.str []))
          if b.departure_ports.contains ((pySplitAll (chars ", ") dps).getLast!) then
            pure (pyEq (dictGetD result (chars "Adults Only") (.bool false))
                       (.bool b.adults_only))
          else pure false
        else pure false
      else pure false
    else pure false
  else pure false

/-! ### Auxiliary definitions used by the theorem statements -/

/-- A string unchanged by Python `strip()`. -/
def Stripped (s : PyStr) : Prop := pyStripLeft s = s ∧ pyStripRight s = s

/-- A coercion-inert scalar: stripped, non-empty, single-line, and stored
back verbatim by the coercion chain (not a boolean word, not a numeral). -/
def InertVal (s : PyStr) : Prop :=
  Stripped s ∧ s ≠ [] ∧ '\n' ∉ s ∧ coerceValue s = .str s

/-- A value that may sit inside a template line without breaking it:
stripped, non-empty, single-line. -/
def TameVal (s : PyStr) : Prop := Stripped s ∧ s ≠ [] ∧ '\n' ∉ s

instance (s : PyStr) : Decidable (InertVal s) := by
  unfold InertVal Stripped; infer_instance

instance (s : PyStr) : Decidable (TameVal s) := by
  unfold TameVal Stripped; infer_instance

/-- A family of cruise records with all twelve required keys: the scalar
string fields are parameters, `cruise_nights` is 7, the two list fields are
singletons, `fare_sets` is empty and every optional key is absent. -/
def cruiseSym (n r sa so ea eo sh opr : PyStr) : CruiseData :=
  [(chars "name", .str n), (chars "ref", .str r),
   (chars "cruise_nights", .int 7),
   (chars "cruise_type", .list [.str (chars "Ocean")]),
   (chars "regions", .list [.str (chars "Med")]),
   (chars "starts_at", .str sa), (chars "starts_on", .str so),
   (chars "ends_at", .str ea), (chars "ends_on", .str eo),
   (chars "ship_title", .str sh), (chars "operator_title", .str opr),
   (chars "fare_sets", .list [])]

/-- A concrete record accepted by `ingest_cruise` whose `name` field is the
string `"true"`. -/
def cruiseCE : CruiseData :=
  cruiseSym (chars "true") (chars "R1") (chars "Southampton")
    (chars "2025-01-01") (chars "Dover") (chars "2025-01-08")
    (chars "Aurora") (chars "PO")

/-- A cruise record missing all required keys but `name`. -/
def cruiseMissing : CruiseData := [(chars "name", .str (chars "X"))]

/-- The string value of a facet field, with the filter's `''` default. -/
def strFieldD (r : Parsed) (k : PyStr) : PyStr :=
  match dictGet r k with
  | some (.str s) => s
  | _ => []

/-- The numeric value of a facet field, with a default for an absent key. -/
def numFieldD (r : Parsed) (k : PyStr) (d : ℚ) : ℚ :=
  match dictGet r k with
  | some v => (numVal v).getD d
  | Option.none => d

/-- The field at `k` is absent or holds a string. -/
def StrOrAbsent (r : Parsed) (k : PyStr) : Prop :=
  ∀ v, dictGet r k = some v → ∃ s, v = .str s

/-- The field at `k` is absent or holds a number (`int`, `float` or
`bool`). -/
def NumOrAbsent (r : Parsed) (k : PyStr) : Prop :=
  ∀ v, dictGet r k = some v → (numVal v).isSome

/-- "Every bound is satisfied", spelled as the plain conjunction of the six
facet conditions over the record's fields, absent fields reading as the
permissive defaults (`''`, `0`, `False`). -/
def boundsSatisfied (b : SearchBounds) (r : Parsed) : Bool :=
  (strLE b.departure_date_lower (strFieldD r (chars "Departure Date")) &&
   strLE (strFieldD r (chars "Departure Date")) b.departure_date_upper) &&
  ((decide ((b.duration_lower : ℚ) ≤ numFieldD r (chars "Duration") 0) &&
    decide (numFieldD r (chars "Duration") 0 ≤ (b.duration_upper : ℚ))) &&
   ((decide (b.price_lower ≤ numFieldD r (chars "Cruise Only From") 0) &&
     decide (numFieldD r (chars "Cruise Only From") 0 ≤ b.price_upper)) &&
    (b.cruise_lines.contains
       ((pySplitAll (chars ", ")
           (strFieldD r (chars "Cruise Lines"))).getLast!) &&
     (b.departure_ports.contains
        ((pySplitAll (chars ", ")
            (strFieldD r (chars "Departure Ports"))).getLast!) &&
      pyEq (dictGetD r (chars "Adults Only") (.bool false))
        (.bool b.adults_only)))))

/-- Concrete bounds under which the filter's first clause passes with an
empty record field. -/
def cexBounds : SearchBounds :=
  ⟨[], chars "z", 0, 10, 0, 100, [], [], false⟩

/-- The description `formatCruise` emits for a `cruiseSym` record, chunk by
chunk (definitionally equal to the formatter's output; the empty chunks are
the absent optional fields). -/
def cruiseDoc (n r sa so ea eo sh opr : PyStr) : PyStr :=
  (chars "\n        CRUISE ITINERARY\n        Name: " ++ n ++
   chars "\n        Reference: " ++ r ++
   chars "\n        Duration: " ++ chars "7" ++
   chars " nights\n        Type: " ++ chars "Ocean" ++
   chars "\n        Regions: " ++ chars "Med" ++
   chars "\n\n        Schedule:\n        Departure: From " ++ sa ++
   chars " on " ++ so ++
   chars "\n        Return: To " ++ ea ++
   chars " on " ++ eo ++
   chars "\n        Vacation Days: " ++ chars "" ++
   chars "\n        Hotel Nights: " ++ chars "0" ++
   chars "\n        Post Cruise Stay: " ++ chars "0" ++
   chars "\n\n        Ship: " ++ sh ++
   chars "\n        Operator: " ++ opr ++
   chars "\n        Rating: " ++ chars "" ++
   chars "\n\n        Pricing:\n        Cruise Only From: $" ++ chars "" ++
   chars "\n        Fly Cruise From: $" ++ chars "" ++
   chars "\n        Inside Cabins From: $" ++ chars "" ++
   chars "\n        Outside Cabins From: $" ++ chars "" ++
   chars "\n        Balcony Cabins From: $" ++ chars "" ++
   chars "\n        Suites From: $" ++ chars "" ++
   chars "\n\n        ") ++
  chars "Itinerary Details: Not available.\n" ++
  chars "\n        Available Fares:\n        " ++ chars "" ++
  chars "\n\n        Departure Airports: " ++ chars "" ++
  chars "\n        "

/-- The templating-then-parsing round trip, observed at one key: format the
record, parse the description back, and look the key up. -/
def roundTrip (cd : CruiseData) (k : PyStr) : Except PyExc (Option Value) :=
  (formatCruise cd).map (fun d => dictGet (parse_description d) k)

/-- Concrete bounds for the well-typed filter witness. -/
def facetBounds : SearchBounds :=
  ⟨chars "2025-01-01", chars "2025-12-31", 5, 10, 0, 1000,
   [chars "PO"], [chars "Dover"], false⟩

/-- A concrete well-typed parsed record for the filter witness. -/
def facetRec : Parsed :=
  [(chars "Departure Date", .str (chars "2025-06-01")),
   (chars "Duration", .int 7),
   (chars "Cruise Only From", .float (499 : ℚ)),
   (chars "Cruise Lines", .str (chars "PO")),
   (chars "Departure Ports", .str (chars "Dover"))]

/-- Join two line lists at the seam: the last line of `xs` is glued to the
first line of `ys`.  `pySplitNL (a ++ b) = glueLines (pySplitNL a)
(pySplitNL b)` (proved below). -/
def glueLines : List PyStr → List PyStr → List PyStr
  | [], ys => ys
  | [x], y :: ys => (x ++ y) :: ys
  | [x], [] => [x]
  | x :: xs, ys => x :: glueLines xs ys

/-! ### Helper lemmas -/

theorem coerceValueE_eq (v : PyStr) : coerceValueE v = .ok (coerceValue v) := by
  unfold coerceValueE coerceValue floatOrRaise intOrRaise
  split_ifs with h1 h2 h3
  · rfl
  · rfl
  · cases h : pyFloatFinite v <;> simp [h, Except.map]
  · cases h : pyInt v <;> simp [h, Except.map]

theorem processLineE_eq (st : ParseState) (l : PyStr) :
    processLineE st l = .ok (processLine st l) := by
  by_cases h1 : pyStrip l = []
  · simp [processLineE, processLine, h1]
  · cases hs : pySplitFirst (chars ": ") (pyStrip l) with
    | none => simp [processLineE, processLine, h1, hs]
    | some kv =>
      obtain ⟨k, v⟩ := kv
      by_cases hm : pyStrip k ∈ multiline_keys
      · simp [processLineE, processLine, h1, hs, hm]
      · simp [processLineE, processLine, h1, hs, hm, coerceValueE_eq]
        rfl

theorem foldlM_processLineE (ls : List PyStr) (st : ParseState) :
    ls.foldlM processLineE st = .ok (ls.foldl processLine st) := by
  induction ls generalizing st with
  | nil => rfl
  | cons l rest ih =>
    rw [List.foldlM_cons, processLineE_eq, List.foldl_cons]
    simpa using ih (processLine st l)

/-- C1: for every input string, `parse_description` terminates with a
mapping and raises no exception: its run in the exception model — where
`float`/`int` conversion raises `ValueError` and the `except ValueError`
handler stores the stripped string — always returns `ok`, with exactly the
value of the pure parser. -/
theorem parse_description_total (description : PyStr) :
    parse_descriptionE description = .ok (parse_description description) := by
  unfold parse_descriptionE parse_description
  rw [foldlM_processLineE]
  rfl

/-! ### Dictionary and step lemmas -/

theorem dictSet_mem {d : Parsed} {k : PyStr} {v : Value} {p : PyStr × Value}
    (h : p ∈ dictSet d k v) : p = (k, v) ∨ p ∈ d := by
  induction d with
  | nil => simpa [dictSet] using h
  | cons kv rest ih =>
    obtain ⟨k', v'⟩ := kv
    by_cases hk : k' = k
    · rw [dictSet, if_pos hk] at h
      rcases List.mem_cons.mp h with h1 | h1
      · exact Or.inl h1
      · exact Or.inr (List.mem_cons_of_mem _ h1)
    · rw [dictSet, if_neg hk] at h
      rcases List.mem_cons.mp h with h1 | h1
      · exact Or.inr (h1 ▸ List.mem_cons_self _ _)
      · rcases ih h1 with h2 | h2
        · exact Or.inl h2
        · exact Or.inr (List.mem_cons_of_mem _ h2)

theorem dictGet_dictSet_none {d : Parsed} {ck : PyStr} {w v : Value}
    (h : dictGet d ck = some w) (k : PyStr) :
    (dictGet (dictSet d ck v) k = none ↔ dictGet d k = none) := by
  induction d with
  | nil => simp [dictGet] at h
  | cons kv rest ih =>
    obtain ⟨k', v'⟩ := kv
    by_cases hk : k' = ck
    · subst hk
      rw [dictSet, if_pos rfl]
      by_cases hq : k' = k
      · subst hq; simp [dictGet]
      · simp [dictGet, hq]
    · rw [dictSet, if_neg hk]
      rw [dictGet, if_neg hk] at h
      by_cases hq : k' = k
      · simp [dictGet, hq]
      · simp only [dictGet, if_neg hq]
        exact ih h

theorem coerceValue_cases (v : PyStr) :
    (∃ s, coerceValue v = .str s) ∨ (∃ b, coerceValue v = .bool b) ∨
    (∃ n, coerceValue v = .int n) ∨ (∃ q, coerceValue v = .float q) := by
  unfold coerceValue
  split_ifs with h1 h2 h3
  · exact Or.inr (Or.inl ⟨true, rfl⟩)
  · exact Or.inr (Or.inl ⟨false, rfl⟩)
  · cases h : pyFloatFinite v with
    | some q => exact Or.inr (Or.inr (Or.inr ⟨q, by simp [h]⟩))
    | none => exact Or.inl ⟨v, by simp [h]⟩
  · cases h : pyInt v with
    | some n => exact Or.inr (Or.inr (Or.inl ⟨n, by simp [h]⟩))
    | none => exact Or.inl ⟨v, by simp [h]⟩

theorem continueLine_currentKey (st : ParseState) (l : PyStr) :
    (continueLine st l).currentKey = st.currentKey := by
  cases hck : st.currentKey with
  | none => simp [continueLine, hck]
  | some ck =>
    by_cases h0 : ck = []
    · simp [continueLine, hck, h0]
    · cases hd : dictGet st.data ck with
      | none => simp [continueLine, hck, h0, hd]
      | some w => cases w <;> simp [continueLine, hck, h0, hd]

theorem processLine_header_multiline (st : ParseState) (rawLine k v : PyStr)
    (hs : pySplitFirst (chars ": ") (pyStrip rawLine) = some (k, v))
    (hm : pyStrip k ∈ multiline_keys) :
    processLine st rawLine =
      ⟨dictSet st.data (pyStrip k) (.str (pyStrip v)), some (pyStrip k)⟩ := by
  have h1 : pyStrip rawLine ≠ [] := by
    intro h0; rw [h0] at hs; simp [pySplitFirst] at hs
  simp [processLine, h1, hs, hm]

theorem processLine_header_plain (st : ParseState) (rawLine k v : PyStr)
    (hs : pySplitFirst (chars ": ") (pyStrip rawLine) = some (k, v))
    (hm : pyStrip k ∉ multiline_keys) :
    processLine st rawLine =
      ⟨dictSet st.data (pyStrip k) (coerceValue (pyStrip v)), st.currentKey⟩ := by
  have h1 : pyStrip rawLine ≠ [] := by
    intro h0; rw [h0] at hs; simp [pySplitFirst] at hs
  simp [processLine, h1, hs, hm]

theorem processLine_cont (st : ParseState) (rawLine : PyStr)
    (h1 : pyStrip rawLine ≠ [])
    (hs : pySplitFirst (chars ": ") (pyStrip rawLine) = none) :
    processLine st rawLine = continueLine st (pyStrip rawLine) := by
  simp [processLine, h1, hs]

theorem continueLine_append (st : ParseState) (line k s : PyStr)
    (hck : st.currentKey = some k) (hk : k ≠ [])
    (hd : dictGet st.data k = some (.str s)) :
    continueLine st line = ⟨dictSet st.data k (.str (s ++ ' ' :: line)), some k⟩ := by
  simp [continueLine, hck, hk, hd]

theorem continueLine_none (st : ParseState) (line : PyStr)
    (hck : st.currentKey = none) : continueLine st line = st := by
  simp [continueLine, hck]

theorem coerceValue_not_list (v : PyStr) (l : List PyStr) :
    coerceValue v ≠ .list l := by
  rcases coerceValue_cases v with ⟨s, h⟩ | ⟨b, h⟩ | ⟨n, h⟩ | ⟨q, h⟩ <;> simp [h]

theorem continueLine_not_list (st : ParseState) (line : PyStr)
    (h : ∀ p ∈ st.data, ∀ l, p.2 ≠ Value.list l) :
    ∀ p ∈ (continueLine st line).data, ∀ l, p.2 ≠ Value.list l := by
  intro p hp l
  cases hck : st.currentKey with
  | none => rw [continueLine_none st line hck] at hp; exact h p hp l
  | some ck =>
    by_cases h0 : ck = []
    · simp [continueLine, hck, h0] at hp; exact h p hp l
    · cases hd : dictGet st.data ck with
      | none => simp [continueLine, hck, h0, hd] at hp; exact h p hp l
      | some w =>
        cases w with
        | str s =>
          rw [continueLine_append st line ck s hck h0 hd] at hp
          rcases dictSet_mem hp with h1 | h1
          · subst h1; simp
          · exact h _ h1 l
        | bool b => simp [continueLine, hck, h0, hd] at hp; exact h p hp l
        | int n => simp [continueLine, hck, h0, hd] at hp; exact h p hp l
        | float q => simp [continueLine, hck, h0, hd] at hp; exact h p hp l
        | list l2 => simp [continueLine, hck, h0, hd] at hp; exact h p hp l

theorem processLine_not_list (st : ParseState) (line : PyStr)
    (h : ∀ p ∈ st.data, ∀ l, p.2 ≠ Value.list l) :
    ∀ p ∈ (processLine st line).data, ∀ l, p.2 ≠ Value.list l := by
  intro p hp l
  by_cases h1 : pyStrip line = []
  · simp [processLine, h1] at hp; exact h p hp l
  · cases hs : pySplitFirst (chars ": ") (pyStrip line) with
    | some kv =>
      obtain ⟨k, v⟩ := kv
      by_cases hm : pyStrip k ∈ multiline_keys
      · rw [processLine_header_multiline st line k v hs hm] at hp
        rcases dictSet_mem hp with h2 | h2
        · subst h2; simp
        · exact h _ h2 l
      · rw [processLine_header_plain st line k v hs hm] at hp
        rcases dictSet_mem hp with h2 | h2
        · subst h2; exact coerceValue_not_list _ l
        · exact h _ h2 l
    | none =>
      rw [processLine_cont st line h1 hs] at hp
      exact continueLine_not_list st (pyStrip line) h p hp l

theorem foldl_not_list (ls : List PyStr) (st : ParseState)
    (h : ∀ p ∈ st.data, ∀ l, p.2 ≠ Value.list l) :
    ∀ p ∈ (ls.foldl processLine st).data, ∀ l, p.2 ≠ Value.list l := by
  induction ls generalizing st with
  | nil => exact h
  | cons x rest ih => exact ih _ (processLine_not_list st x h)

/-- C10: every value in the mapping returned by `parse_description` is a
string, a boolean, an integer or a float; the list-of-strings alternative
admitted by the declared return type is never produced. -/
theorem parse_values_never_list (description : PyStr) (p : PyStr × Value)
    (hp : p ∈ parse_description description) :
    ((∃ s, p.2 = .str s) ∨ (∃ b, p.2 = .bool b) ∨
     (∃ n, p.2 = .int n) ∨ (∃ q, p.2 = .float q)) ∧
    ∀ l, p.2 ≠ Value.list l := by
  have hall : ∀ p' ∈ parse_description description, ∀ l, p'.2 ≠ Value.list l := by
    intro p' hp' l
    exact foldl_not_list _ ⟨[], none⟩ (by simp) p' hp' l
  refine ⟨?_, hall p hp⟩
  cases hv : p.2 with
  | str s => exact Or.inl ⟨s, rfl⟩
  | bool b => exact Or.inr (Or.inl ⟨b, rfl⟩)
  | int n => exact Or.inr (Or.inr (Or.inl ⟨n, rfl⟩))
  | float q => exact Or.inr (Or.inr (Or.inr ⟨q, rfl⟩))
  | list l => exact absurd hv (hall p hp l)

/-- Witness for C10 at a concrete input. -/
theorem parse_values_never_list_witness :
    ((chars "A", Value.int 3) ∈ parse_description (chars "A: 3")) ∧
    (((∃ s, Value.int 3 = .str s) ∨ (∃ b, Value.int 3 = .bool b) ∨
      (∃ n, Value.int 3 = .int n) ∨ (∃ q, Value.int 3 = .float q)) ∧
     ∀ l, Value.int 3 ≠ Value.list l) :=
  ⟨by decide, parse_values_never_list (chars "A: 3") (chars "A", Value.int 3) (by decide)⟩

/-- C7: a header line whose key is in the static multiline-field set stores
the (stripped) value verbatim as a string and repoints `current_key` to that
key; no boolean or numeric coercion is applied, so a multiline-designated
field whose first line is `3` holds the string `"3"`, not the integer 3. -/
theorem multiline_header_verbatim :
    (∀ (st : ParseState) (rawLine k v : PyStr),
       pySplitFirst (chars ": ") (pyStrip rawLine) = some (k, v) →
       pyStrip k ∈ multiline_keys →
       processLine st rawLine =
         ⟨dictSet st.data (pyStrip k) (.str (pyStrip v)), some (pyStrip k)⟩) ∧
    parse_description (chars "Description: 3") =
      [(chars "Description", .str (chars "3"))] := by
  exact ⟨processLine_header_multiline, by decide⟩

/-- Witness for C7's quantified conjunct at a concrete input. -/
theorem multiline_header_verbatim_witness :
    pySplitFirst (chars ": ") (pyStrip (chars "Cabin Types: 3")) =
      some (chars "Cabin Types", chars "3") ∧
    (chars "Cabin Types" : PyStr) ∈ multiline_keys ∧
    processLine ⟨[], none⟩ (chars "Cabin Types: 3") =
      ⟨[(chars "Cabin Types", .str (chars "3"))], some (chars "Cabin Types")⟩ := by
  refine ⟨by decide, by decide, ?_⟩
  have h := multiline_header_verbatim.1 ⟨[], none⟩ (chars "Cabin Types: 3")
    (chars "Cabin Types") (chars "3") (by decide) (by decide)
  simpa using h

theorem processLine_currentKey_inv (st : ParseState) (l : PyStr)
    (h : ∀ k, st.currentKey = some k → k ∈ multiline_keys) :
    ∀ k, (processLine st l).currentKey = some k → k ∈ multiline_keys := by
  intro k hk
  by_cases h1 : pyStrip l = []
  · simp [processLine, h1] at hk; exact h k hk
  · cases hs : pySplitFirst (chars ": ") (pyStrip l) with
    | some kv =>
      obtain ⟨k', v'⟩ := kv
      by_cases hm : pyStrip k' ∈ multiline_keys
      · rw [processLine_header_multiline st l k' v' hs hm] at hk
        simp at hk; exact hk ▸ hm
      · rw [processLine_header_plain st l k' v' hs hm] at hk
        exact h k hk
    | none =>
      rw [processLine_cont st l h1 hs, continueLine_currentKey] at hk
      exact h k hk

theorem foldl_currentKey_inv (ls : List PyStr) (st : ParseState)
    (h : ∀ k, st.currentKey = some k → k ∈ multiline_keys) :
    ∀ k, (ls.foldl processLine st).currentKey = some k → k ∈ multiline_keys := by
  induction ls generalizing st with
  | nil => exact h
  | cons x rest ih => exact ih _ (processLine_currentKey_inv st x h)

/-- C5: a non-blank line without `': '` is appended, space-joined, to the
string value of the most recently opened multiline field whenever one is
open — `current_key` is global across the parse and only multiline-field
headers update it, so intervening non-multiline assignments do not redirect
the continuation — and such a line is silently dropped when no multiline
field has been opened; `current_key` always names a multiline field, so
non-multiline fields never receive continuation lines. -/
theorem continuation_behavior :
    (∀ (st : ParseState) (rawLine k s : PyStr),
       pyStrip rawLine ≠ [] →
       pySplitFirst (chars ": ") (pyStrip rawLine) = none →
       st.currentKey = some k → k ∈ multiline_keys →
       dictGet st.data k = some (.str s) →
       processLine st rawLine =
         ⟨dictSet st.data k (.str (s ++ ' ' :: pyStrip rawLine)), some k⟩) ∧
    (∀ (st : ParseState) (rawLine : PyStr),
       pyStrip rawLine ≠ [] →
       pySplitFirst (chars ": ") (pyStrip rawLine) = none →
       st.currentKey = none →
       processLine st rawLine = st) ∧
    (∀ (st : ParseState) (rawLine k v : PyStr),
       pySplitFirst (chars ": ") (pyStrip rawLine) = some (k, v) →
       pyStrip k ∉ multiline_keys →
       (processLine st rawLine).currentKey = st.currentKey) ∧
    (∀ (description k : PyStr),
       ((pySplitNL (pyStrip description)).foldl processLine
           ⟨[], none⟩).currentKey = some k →
       k ∈ multiline_keys) := by
  refine ⟨?_, ?_, ?_, ?_⟩
  · intro st rawLine k s h1 hs hck hkm hd
    have hk0 : k ≠ [] := by
      intro h0; rw [h0] at hkm; exact absurd hkm (by decide)
    rw [processLine_cont st rawLine h1 hs]
    exact continueLine_append st (pyStrip rawLine) k s hck hk0 hd
  · intro st rawLine h1 hs hck
    rw [processLine_cont st rawLine h1 hs]
    exact continueLine_none st (pyStrip rawLine) hck
  · intro st rawLine k v hs hm
    rw [processLine_header_plain st rawLine k v hs hm]
  · intro description k hk
    exact foldl_currentKey_inv _ ⟨[], none⟩ (by simp) k hk

/-- Witness for C5 at concrete inputs, one per conjunct. -/
theorem continuation_behavior_witness :
    (pySplitFirst (chars ": ")
        (pyStrip (chars "world")) = none ∧
     processLine ⟨[(chars "Description", .str (chars "a"))], some (chars "Description")⟩
        (chars "world") =
       ⟨[(chars "Description", .str (chars "a world"))], some (chars "Description")⟩) ∧
    processLine ⟨[], none⟩ (chars "world") = ⟨[], none⟩ ∧
    (processLine ⟨[(chars "Description", .str (chars "a"))], some (chars "Description")⟩
        (chars "Hotel Nights: 1")).currentKey = some (chars "Description") ∧
    (chars "Description" : PyStr) ∈ multiline_keys := by
  refine ⟨⟨by decide, ?_⟩, ?_, ?_, ?_⟩
  · have h := continuation_behavior.1
      ⟨[(chars "Description", .str (chars "a"))], some (chars "Description")⟩
      (chars "world") (chars "Description") (chars "a")
      (by decide) (by decide) rfl (by decide) (by decide)
    simpa using h
  · exact continuation_behavior.2.1 ⟨[], none⟩ (chars "world") (by decide) (by decide) rfl
  · have h := continuation_behavior.2.2.1
      ⟨[(chars "Description", .str (chars "a"))], some (chars "Description")⟩
      (chars "Hotel Nights: 1") (chars "Hotel Nights") (chars "1")
      (by decide) (by decide)
    simpa using h
  · exact continuation_behavior.2.2.2 (chars "Description: a") (chars "Description")
      (by decide)

theorem continueLine_keys (st : ParseState) (line k : PyStr) :
    dictGet (continueLine st line).data k = none ↔ dictGet st.data k = none := by
  cases hck : st.currentKey with
  | none => rw [continueLine_none st line hck]
  | some ck =>
    by_cases h0 : ck = []
    · simp [continueLine, hck, h0]
    · cases hd : dictGet st.data ck with
      | none => simp [continueLine, hck, h0, hd]
      | some w =>
        cases w with
        | str s =>
          rw [continueLine_append st line ck s hck h0 hd]
          exact dictGet_dictSet_none hd k
        | bool b => simp [continueLine, hck, h0, hd]
        | int n => simp [continueLine, hck, h0, hd]
        | float q => simp [continueLine, hck, h0, hd]
        | list l2 => simp [continueLine, hck, h0, hd]

/-- C9: a line of the form `Key:value` (colon, no following space) is not
treated as a header: it falls through to the continuation branch — appended
to the open multiline field's string if one is open, silently dropped
otherwise — and never creates a new key. -/
theorem colon_without_space_not_header :
    (∀ (st : ParseState) (rawLine : PyStr),
       pyStrip rawLine ≠ [] →
       pySplitFirst (chars ": ") (pyStrip rawLine) = none →
       processLine st rawLine = continueLine st (pyStrip rawLine) ∧
       (∀ k, dictGet (processLine st rawLine).data k = none ↔
          dictGet st.data k = none)) ∧
    parse_description (chars "Key:value") = [] ∧
    parse_description (chars "Description: a\nKey:value") =
      [(chars "Description", .str (chars "a Key:value"))] := by
  refine ⟨?_, by decide, by decide⟩
  intro st rawLine h1 hs
  refine ⟨processLine_cont st rawLine h1 hs, ?_⟩
  intro k
  rw [processLine_cont st rawLine h1 hs]
  exact continueLine_keys st (pyStrip rawLine) k

/-- Witness for C9's quantified conjunct at a concrete input. -/
theorem colon_without_space_not_header_witness :
    pyStrip (chars "Key:value") ≠ [] ∧
    pySplitFirst (chars ": ") (pyStrip (chars "Key:value")) = none ∧
    processLine ⟨[], none⟩ (chars "Key:value") =
      continueLine ⟨[], none⟩ (pyStrip (chars "Key:value")) ∧
    (dictGet (processLine ⟨[], none⟩ (chars "Key:value")).data (chars "Key") = none ↔
      dictGet ([] : Parsed) (chars "Key") = none) := by
  have h := colon_without_space_not_header.1 ⟨[], none⟩ (chars "Key:value")
    (by decide) (by decide)
  exact ⟨by decide, by decide, h.1, h.2 (chars "Key")⟩

theorem coerceValue_true (v : PyStr) (h : pyLower v = chars "true") :
    coerceValue v = .bool true := by
  unfold coerceValue
  rw [if_pos h]

theorem coerceValue_false (v : PyStr) (h : pyLower v = chars "false") :
    coerceValue v = .bool false := by
  unfold coerceValue
  rw [if_neg (by rw [h]; decide), if_pos h]

theorem coerceValue_float_branch (v : PyStr)
    (h1 : pyLower v ≠ chars "true") (h2 : pyLower v ≠ chars "false")
    (h3 : v.contains '.' = true) :
    coerceValue v =
      match pyFloatFinite v with
      | some q => .float q
      | Option.none => .str v := by
  unfold coerceValue
  rw [if_neg h1, if_neg h2, if_pos h3]

theorem coerceValue_int_branch (v : PyStr)
    (h1 : pyLower v ≠ chars "true") (h2 : pyLower v ≠ chars "false")
    (h3 : v.contains '.' = false) :
    coerceValue v =
      match pyInt v with
      | some n => .int n
      | Option.none => .str v := by
  unfold coerceValue
  rw [if_neg h1, if_neg h2, if_neg (by rw [h3]; decide)]

/-- C6 helper: the coercion chain on a value whose lowercasing is neither
`true` nor `false`, split by the `'.'` test. -/
theorem coerceValue_numeric (v : PyStr)
    (h1 : pyLower v ≠ chars "true") (h2 : pyLower v ≠ chars "false") :
    (v.contains '.' = true →
      (∀ q, pyFloatFinite v = some q → coerceValue v = .float q) ∧
      (pyFloatFinite v = none → coerceValue v = .str v)) ∧
    (v.contains '.' = false →
      (∀ n, pyInt v = some n → coerceValue v = .int n) ∧
      (pyInt v = none → coerceValue v = .str v)) := by
  constructor
  · intro h3
    constructor
    · intro q hq; rw [coerceValue_float_branch v h1 h2 h3, hq]
    · intro hq; rw [coerceValue_float_branch v h1 h2 h3, hq]
  · intro h3
    constructor
    · intro n hn; rw [coerceValue_int_branch v h1 h2 h3, hn]
    · intro hn; rw [coerceValue_int_branch v h1 h2 h3, hn]

theorem pyFloat_2_5 : pyFloatFinite (chars "2.5") = some (5 / 2 : ℚ) := by
  have hc : chars "2.5" = ['2', '.', '5'] := rfl
  rw [hc]
  simp [pyFloatFinite, pyStrip, pyStripLeft, pyStripRight, parseSign,
    findCharSplit, digitsU, digitsGo, digitVal, isAsciiDigit, ratPow10,
    pyIsSpace, List.dropWhile]
  norm_num

/-- Concrete evaluation of the spec's four-line coercion example; the
`Bar` line produces the exact rational 5/2. -/
theorem parse_example_four_lines :
    parse_description (chars "Foo: 3\nBar: 2.5\nBaz: true\nQux: hello") =
      [(chars "Foo", .int 3), (chars "Bar", .float (5 / 2 : ℚ)),
       (chars "Baz", .bool true), (chars "Qux", .str (chars "hello"))] := by
  unfold parse_description
  rw [show pySplitNL (pyStrip (chars "Foo: 3\nBar: 2.5\nBaz: true\nQux: hello")) =
        [chars "Foo: 3", chars "Bar: 2.5", chars "Baz: true", chars "Qux: hello"]
      from by decide]
  rw [List.foldl_cons,
      show processLine ⟨[], none⟩ (chars "Foo: 3") =
        ⟨[(chars "Foo", .int 3)], none⟩ from by decide]
  rw [List.foldl_cons,
      processLine_header_plain _ (chars "Bar: 2.5") (chars "Bar") (chars "2.5")
        (by decide) (by decide)]
  rw [show pyStrip (chars "Bar") = chars "Bar" from by decide,
      show pyStrip (chars "2.5") = chars "2.5" from by decide,
      coerceValue_float_branch (chars "2.5") (by decide) (by decide) (by decide),
      pyFloat_2_5]
  rw [show dictSet [(chars "Foo", Value.int 3)] (chars "Bar")
        (.float (5 / 2 : ℚ)) =
        [(chars "Foo", Value.int 3), (chars "Bar", Value.float (5 / 2 : ℚ))]
      from by rw [dictSet, if_neg (by decide), dictSet]]
  rw [List.foldl_cons,
      processLine_header_plain _ (chars "Baz: true") (chars "Baz") (chars "true")
        (by decide) (by decide)]
  rw [show pyStrip (chars "Baz") = chars "Baz" from by decide,
      show pyStrip (chars "true") = chars "true" from by decide,
      coerceValue_true (chars "true") (by decide)]
  rw [show dictSet [(chars "Foo", Value.int 3), (chars "Bar", Value.float (5 / 2 : ℚ))]
        (chars "Baz") (.bool true) =
        [(chars "Foo", Value.int 3), (chars "Bar", Value.float (5 / 2 : ℚ)),
         (chars "Baz", Value.bool true)]
      from by rw [dictSet, if_neg (by decide), dictSet, if_neg (by decide), dictSet]]
  rw [List.foldl_cons,
      processLine_header_plain _ (chars "Qux: hello") (chars "Qux") (chars "hello")
        (by decide) (by decide)]
  rw [show pyStrip (chars "Qux") = chars "Qux" from by decide,
      show pyStrip (chars "hello") = chars "hello" from by decide,
      coerceValue_int_branch (chars "hello") (by decide) (by decide) (by decide),
      show pyInt (chars "hello") = none from by decide]
  rw [show dictSet [(chars "Foo", Value.int 3), (chars "Bar", Value.float (5 / 2 : ℚ)),
         (chars "Baz", Value.bool true)] (chars "Qux") (.str (chars "hello")) =
        [(chars "Foo", Value.int 3), (chars "Bar", Value.float (5 / 2 : ℚ)),
         (chars "Baz", Value.bool true), (chars "Qux", Value.str (chars "hello"))]
      from by
        rw [dictSet, if_neg (by decide), dictSet, if_neg (by decide), dictSet,
            if_neg (by decide), dictSet]]
  rfl

/-- C6: a non-multiline header value is coerced in fixed priority order —
case-insensitive `true`/`false` to booleans first, then float when the
value contains `'.'`, else int, with any parse failure storing the original
stripped string — and the spec's two examples evaluate accordingly. -/
theorem coercion_priority :
    (∀ (st : ParseState) (rawLine k v : PyStr),
       pySplitFirst (chars ": ") (pyStrip rawLine) = some (k, v) →
       pyStrip k ∉ multiline_keys →
       processLine st rawLine =
         ⟨dictSet st.data (pyStrip k) (coerceValue (pyStrip v)), st.currentKey⟩) ∧
    (∀ v : PyStr, pyLower v = chars "true" → coerceValue v = .bool true) ∧
    (∀ v : PyStr, pyLower v = chars "false" → coerceValue v = .bool false) ∧
    (∀ v : PyStr, pyLower v ≠ chars "true" → pyLower v ≠ chars "false" →
       v.contains '.' = true →
       (∀ q, pyFloatFinite v = some q → coerceValue v = .float q) ∧
       (pyFloatFinite v = none → coerceValue v = .str v)) ∧
    (∀ v : PyStr, pyLower v ≠ chars "true" → pyLower v ≠ chars "false" →
       v.contains '.' = false →
       (∀ n, pyInt v = some n → coerceValue v = .int n) ∧
       (pyInt v = none → coerceValue v = .str v)) ∧
    parse_description (chars "Foo: 3\nBar: 2.5\nBaz: true\nQux: hello") =
      [(chars "Foo", .int 3), (chars "Bar", .float (5 / 2 : ℚ)),
       (chars "Baz", .bool true), (chars "Qux", .str (chars "hello"))] ∧
    parse_description (chars "Price: 10.5.5") =
      [(chars "Price", .str (chars "10.5.5"))] := by
  refine ⟨processLine_header_plain, ?_, ?_, ?_, ?_, parse_example_four_lines, by decide⟩
  · exact coerceValue_true
  · exact coerceValue_false
  · intro v h1 h2 h3; exact (coerceValue_numeric v h1 h2).1 h3
  · intro v h1 h2 h3; exact (coerceValue_numeric v h1 h2).2 h3

/-- Witness for C6's quantified conjuncts at concrete inputs. -/
theorem coercion_priority_witness :
    processLine ⟨[], none⟩ (chars "X: 9") = ⟨[(chars "X", .int 9)], none⟩ ∧
    coerceValue (chars "TRUE") = .bool true ∧
    coerceValue (chars "False") = .bool false ∧
    coerceValue (chars "10.5.5") = .str (chars "10.5.5") ∧
    coerceValue (chars "2.5") = .float (5 / 2 : ℚ) ∧
    coerceValue (chars "12") = .int 12 ∧
    coerceValue (chars "hello") = .str (chars "hello") := by
  refine ⟨?_, ?_, ?_, ?_, ?_, ?_, ?_⟩
  · have h := coercion_priority.1 ⟨[], none⟩ (chars "X: 9") (chars "X") (chars "9")
      (by decide) (by decide)
    simpa using h
  · exact coercion_priority.2.1 (chars "TRUE") (by decide)
  · exact coercion_priority.2.2.1 (chars "False") (by decide)
  · exact (coercion_priority.2.2.2.1 (chars "10.5.5") (by decide) (by decide)
      (by decide)).2 (by decide)
  · exact (coercion_priority.2.2.2.1 (chars "2.5") (by decide) (by decide)
      (by decide)).1 (5 / 2 : ℚ) pyFloat_2_5
  · exact (coercion_priority.2.2.2.2.1 (chars "12") (by decide) (by decide)
      (by decide)).1 12 (by decide)
  · exact (coercion_priority.2.2.2.2.1 (chars "hello") (by decide) (by decide)
      (by decide)).2 (by decide)

theorem splitFirst_colon_space (pre post : PyStr)
    (h : pySplitFirst [':', ' '] pre = none) :
    pySplitFirst [':', ' '] (pre ++ ':' :: ' ' :: post) = some (pre, post) := by
  induction pre with
  | nil => simp [pySplitFirst, List.isPrefixOf]
  | cons c t ih =>
    have hp : ¬ ([':', ' '] : PyStr).isPrefixOf (c :: t) := by
      intro hc; rw [pySplitFirst, if_pos hc] at h; cases h
    have h2 : pySplitFirst [':', ' '] t = none := by
      rw [pySplitFirst, if_neg hp] at h
      cases h2 : pySplitFirst [':', ' '] t with
      | none => rfl
      | some ab => obtain ⟨a, b⟩ := ab; rw [h2] at h; cases h
    rw [List.cons_append, pySplitFirst]
    have hnp : ¬ ([':', ' '] : PyStr).isPrefixOf (c :: (t ++ ':' :: ' ' :: post)) := by
      cases t with
      | nil => simp [List.isPrefixOf]
      | cons c2 t2 =>
        intro hc
        apply hp
        simp [List.isPrefixOf] at hc ⊢
        exact ⟨hc.1, hc.2⟩
    rw [if_neg hnp, ih h2]

/-- C8: a header line splits only at the first `': '`, so a value that
itself contains `': '` is preserved intact; `"Key: a: b"` parses to the
single entry mapping `Key` to `"a: b"`. -/
theorem split_first_occurrence :
    (∀ pre post : PyStr, hasSubstr (chars ": ") pre = false →
       pySplitFirst (chars ": ") (pre ++ chars ": " ++ post) = some (pre, post)) ∧
    parse_description (chars "Key: a: b") =
      [(chars "Key", .str (chars "a: b"))] := by
  constructor
  · intro pre post h
    have h0 : pySplitFirst [':', ' '] pre = none := by
      cases hh : pySplitFirst [':', ' '] pre with
      | none => rfl
      | some ab =>
        unfold hasSubstr at h
        rw [show (chars ": ") = [':', ' '] from rfl, hh] at h
        cases h
    rw [List.append_assoc]
    exact splitFirst_colon_space pre post h0
  · decide

/-- Witness for C8's quantified conjunct at a concrete input. -/
theorem split_first_occurrence_witness :
    hasSubstr (chars ": ") (chars "Port") = false ∧
    pySplitFirst (chars ": ") (chars "Port" ++ chars ": " ++ chars "x: y") =
      some (chars "Port", chars "x: y") :=
  ⟨by decide, split_first_occurrence.1 (chars "Port") (chars "x: y") (by decide)⟩

/-! ### C3: fail-fast on missing required keys -/

/-- C3: a cruise record missing required keys makes `ingest_cruise` fail
with the single `KeyError` naming exactly the set of missing required keys
(in the fixed `required_keys` order, hence deterministically), before any
formatting is attempted and before anything is handed to the external
service (no `ok` outcome, hence no insert payload). -/
theorem ingest_cruise_missing_keys_reported (cruise_data : CruiseData)
    (h : missingKeys cruise_data ≠ []) :
    ingest_cruise cruise_data = .error (.keyError (missingKeys cruise_data)) ∧
    (∀ k, k ∈ missingKeys cruise_data ↔
       (k ∈ required_keys ∧ cdHasKey cruise_data k = false)) ∧
    (∀ out, ingest_cruise cruise_data ≠ .ok out) := by
  have hcond : (!(missingKeys cruise_data).isEmpty) = true := by
    cases hm : missingKeys cruise_data with
    | nil => exact absurd hm h
    | cons a t => simp
  refine ⟨?_, ?_, ?_⟩
  · unfold ingest_cruise
    rw [if_pos hcond]
  · intro k
    unfold missingKeys
    simp [List.mem_filter]
  · intro out hout
    unfold ingest_cruise at hout
    rw [if_pos hcond] at hout
    cases hout

/-- Witness for C3 at a record with only `name` present. -/
theorem ingest_cruise_missing_keys_reported_witness :
    missingKeys cruiseMissing ≠ [] ∧
    ingest_cruise cruiseMissing = .error (.keyError (missingKeys cruiseMissing)) ∧
    ((chars "ref") ∈ missingKeys cruiseMissing ↔
      ((chars "ref") ∈ required_keys ∧ cdHasKey cruiseMissing (chars "ref") = false)) :=
  ⟨by decide,
   (ingest_cruise_missing_keys_reported cruiseMissing (by decide)).1,
   (ingest_cruise_missing_keys_reported cruiseMissing (by decide)).2.1 (chars "ref")⟩

/-! ### C4: the facet filter -/

theorem except_bind_ok {α β : Type} (a : α) (f : α → Except PyExc β) :
    (Except.ok a >>= f) = f a := rfl

theorem except_pure {α : Type} (a : α) : (pure a : Except PyExc α) = .ok a := rfl

theorem pyLE_num (a x : Value) (qa qx : ℚ)
    (ha : numVal a = some qa) (hx : numVal x = some qx) :
    pyLE a x = .ok (decide (qa ≤ qx)) := by
  cases a <;> cases x <;> simp_all [pyLE, numVal]

theorem pyChain3_num (lo x hi : Value) (qlo qx qhi : ℚ)
    (hlo : numVal lo = some qlo) (hx : numVal x = some qx)
    (hhi : numVal hi = some qhi) :
    pyChain3 lo x hi = .ok (decide (qlo ≤ qx) && decide (qx ≤ qhi)) := by
  unfold pyChain3
  rw [pyLE_num lo x qlo qx hlo hx, except_bind_ok]
  by_cases hq : qlo ≤ qx
  · simp [hq, pyLE_num x hi qx qhi hx hhi]
  · simp [hq, except_pure]

theorem pyChain3_str (lo x hi : PyStr) :
    pyChain3 (.str lo) (.str x) (.str hi) = .ok (strLE lo x && strLE x hi) := by
  unfold pyChain3
  rw [show pyLE (.str lo) (.str x) = .ok (strLE lo x) from rfl, except_bind_ok]
  cases hq : strLE lo x with
  | true => simp [pyLE]
  | false => simp [except_pure]

/-- C4 counterexample: the record parsed from `"Duration: 7 nights"` (whose
`Duration` is the string `"7 nights"`) makes the filter raise a `TypeError`
under bounds whose date clause passes, so the filter neither accepts nor
rejects — contradicting the claim that it accepts iff every bound is
satisfied without crashing. -/
theorem facet_filter_counterexample :
    parse_description (chars "Duration: 7 nights") =
      [(chars "Duration", .str (chars "7 nights"))] ∧
    acceptResult cexBounds [(chars "Duration", .str (chars "7 nights"))] =
      .error .typeError :=
  ⟨by decide, by decide⟩

/-- C4 (amended): for every choice of bounds and every parsed record whose
five facet fields are, when present, of the expected kinds — strings for
`Departure Date`/`Cruise Lines`/`Departure Ports`, numbers for
`Duration`/`Cruise Only From` — the filter raises nothing and accepts the
record if and only if every bound is satisfied, absent fields reading as
the permissive defaults `''`/`0`/`False`. -/
theorem facet_filter_amended (b : SearchBounds) (r : Parsed)
    (h1 : StrOrAbsent r (chars "Departure Date"))
    (h2 : NumOrAbsent r (chars "Duration"))
    (h3 : NumOrAbsent r (chars "Cruise Only From"))
    (h4 : StrOrAbsent r (chars "Cruise Lines"))
    (h5 : StrOrAbsent r (chars "Departure Ports")) :
    acceptResult b r = .ok (boundsSatisfied b r) := by
  have e1 : dictGetD r (chars "Departure Date") (.str []) =
      .str (strFieldD r (chars "Departure Date")) := by
    cases hd : dictGet r (chars "Departure Date") with
    | none => simp [dictGetD, hd, strFieldD]
    | some v =>
      obtain ⟨s, rfl⟩ := h1 v hd
      simp [dictGetD, hd, strFieldD]
  have e2 : numVal (dictGetD r (chars "Duration") (.int 0)) =
      some (numFieldD r (chars "Duration") 0) := by
    cases hd : dictGet r (chars "Duration") with
    | none => simp [dictGetD, hd, numFieldD, numVal]
    | some v =>
      have hv := h2 v hd
      cases hnv : numVal v with
      | none => rw [hnv] at hv; cases hv
      | some q => simp [dictGetD, hd, numFieldD, hnv]
  have e3 : numVal (dictGetD r (chars "Cruise Only From") (.int 0)) =
      some (numFieldD r (chars "Cruise Only From") 0) := by
    cases hd : dictGet r (chars "Cruise Only From") with
    | none => simp [dictGetD, hd, numFieldD, numVal]
    | some v =>
      have hv := h3 v hd
      cases hnv : numVal v with
      | none => rw [hnv] at hv; cases hv
      | some q => simp [dictGetD, hd, numFieldD, hnv]
  have e4 : dictGetD r (chars "Cruise Lines") (.str []) =
      .str (strFieldD r (chars "Cruise Lines")) := by
    cases hd : dictGet r (chars "Cruise Lines") with
    | none => simp [dictGetD, hd, strFieldD]
    | some v =>
      obtain ⟨s, rfl⟩ := h4 v hd
      simp [dictGetD, hd, strFieldD]
  have e5 : dictGetD r (chars "Departure Ports") (.str []) =
      .str (strFieldD r (chars "Departure Ports")) := by
    cases hd : dictGet r (chars "Departure Ports") with
    | none => simp [dictGetD, hd, strFieldD]
    | some v =>
      obtain ⟨s, rfl⟩ := h5 v hd
      simp [dictGetD, hd, strFieldD]
  unfold acceptResult boundsSatisfied
  rw [e1, e4, e5,
      pyChain3_str b.departure_date_lower (strFieldD r (chars "Departure Date"))
        b.departure_date_upper,
      pyChain3_num (.int b.duration_lower) _ (.int b.duration_upper)
        (b.duration_lower : ℚ) (numFieldD r (chars "Duration") 0)
        (b.duration_upper : ℚ) rfl e2 rfl,
      pyChain3_num (.float b.price_lower) _ (.float b.price_upper)
        b.price_lower (numFieldD r (chars "Cruise Only From") 0)
        b.price_upper rfl e3 rfl]
  simp only [except_bind_ok, except_pure, strAttr]
  cases hb1 : (strLE b.departure_date_lower (strFieldD r (chars "Departure Date")) &&
      strLE (strFieldD r (chars "Departure Date")) b.departure_date_upper) with
  | false => simp
  | true =>
    cases hb2 : (decide ((b.duration_lower : ℚ) ≤ numFieldD r (chars "Duration") 0) &&
        decide (numFieldD r (chars "Duration") 0 ≤ (b.duration_upper : ℚ))) with
    | false => simp
    | true =>
      cases hb3 : (decide (b.price_lower ≤ numFieldD r (chars "Cruise Only From") 0) &&
          decide (numFieldD r (chars "Cruise Only From") 0 ≤ b.price_upper)) with
      | false => simp
      | true =>
        cases hb4 : b.cruise_lines.contains
            ((pySplitAll (chars ", ")
                (strFieldD r (chars "Cruise Lines"))).getLast!) with
        | false => simp [hb4]
        | true =>
          cases hb5 : b.departure_ports.contains
              ((pySplitAll (chars ", ")
                  (strFieldD r (chars "Departure Ports"))).getLast!) with
          | false => simp [hb5]
          | true => simp [hb4, hb5]

/-- Witness for C4's amended theorem: a fully concrete well-typed record
and bounds. -/
theorem facet_filter_amended_witness :
    acceptResult facetBounds facetRec = .ok (boundsSatisfied facetBounds facetRec) := by
  apply facet_filter_amended
  · intro v hv
    rw [show dictGet facetRec (chars "Departure Date") =
          some (.str (chars "2025-06-01")) from rfl] at hv
    cases hv
    exact ⟨_, rfl⟩
  · intro v hv
    rw [show dictGet facetRec (chars "Duration") = some (.int 7) from rfl] at hv
    cases hv
    rfl
  · intro v hv
    rw [show dictGet facetRec (chars "Cruise Only From") =
          some (.float (499 : ℚ)) from rfl] at hv
    cases hv
    rfl
  · intro v hv
    rw [show dictGet facetRec (chars "Cruise Lines") =
          some (.str (chars "PO")) from rfl] at hv
    cases hv
    exact ⟨_, rfl⟩
  · intro v hv
    rw [show dictGet facetRec (chars "Departure Ports") =
          some (.str (chars "Dover")) from rfl] at hv
    cases hv
    exact ⟨_, rfl⟩

/-! ### String lemmas for the round-trip proof -/

theorem dropWhile_append_ne (p : Char → Bool) (a b : PyStr)
    (h : a.dropWhile p ≠ []) :
    (a ++ b).dropWhile p = a.dropWhile p ++ b := by
  induction a with
  | nil => simp [List.dropWhile] at h
  | cons c t ih =>
    by_cases hc : p c
    · simp only [List.cons_append, List.dropWhile, hc] at h ⊢
      exact ih h
    · simp only [List.cons_append, List.dropWhile, hc]
      simp

theorem dropWhile_append_nil (p : Char → Bool) (a b : PyStr)
    (h : a.dropWhile p = []) :
    (a ++ b).dropWhile p = b.dropWhile p := by
  induction a with
  | nil => simp
  | cons c t ih =>
    by_cases hc : p c
    · simp only [List.dropWhile, hc] at h
      simp only [List.cons_append, List.dropWhile, hc]
      exact ih h
    · simp [List.dropWhile, hc] at h

theorem pyStripRight_append2 (x v : PyStr) (h : pyStripRight v ≠ []) :
    pyStripRight (x ++ v) = x ++ pyStripRight v := by
  unfold pyStripRight at *
  have h2 : v.reverse.dropWhile pyIsSpace ≠ [] := by
    intro h0; rw [h0] at h; simp at h
  rw [List.reverse_append, dropWhile_append_ne _ _ _ h2, List.reverse_append,
      List.reverse_reverse]

theorem pyStripRight_append_ne (x v : PyStr) (h : pyStripRight v ≠ []) :
    pyStripRight (x ++ v) ≠ [] := by
  rw [pyStripRight_append2 x v h]
  intro h0
  rw [List.append_eq_nil] at h0
  exact h h0.2

theorem pyStripRight_self_append (x v : PyStr) (hv : pyStripRight v = v)
    (hne : v ≠ []) :
    pyStripRight (x ++ v) = x ++ v := by
  rw [pyStripRight_append2 x v (by rw [hv]; exact hne), hv]

theorem pyStripLeft_append_ne (a b : PyStr) (h : pyStripLeft a ≠ []) :
    pyStripLeft (a ++ b) = pyStripLeft a ++ b :=
  dropWhile_append_ne pyIsSpace a b h

theorem pySplitNL_ne_nil (s : PyStr) : pySplitNL s ≠ [] := by
  induction s with
  | nil => simp [pySplitNL]
  | cons c t ih =>
    unfold pySplitNL
    by_cases hc : c = '\n'
    · simp [hc]
    · simp only [hc, if_false]
      cases h : pySplitNL t with
      | nil => simp
      | cons l ls => simp

theorem pySplitNL_cons_nl (t : PyStr) :
    pySplitNL ('\n' :: t) = [] :: pySplitNL t := by
  simp [pySplitNL]

theorem pySplitNL_cons (c : Char) (t : PyStr) (h : c ≠ '\n') :
    pySplitNL (c :: t) =
      match pySplitNL t with
      | [] => [[c]]
      | l :: ls => (c :: l) :: ls := by
  simp [pySplitNL, h]

theorem pySplitNL_glue (a b : PyStr) :
    pySplitNL (a ++ b) = glueLines (pySplitNL a) (pySplitNL b) := by
  induction a with
  | nil =>
    cases hb : pySplitNL b with
    | nil => exact absurd hb (pySplitNL_ne_nil b)
    | cons y ys =>
      rw [List.nil_append, hb]
      simp [pySplitNL, glueLines]
  | cons c t ih =>
    by_cases hc : c = '\n'
    · subst hc
      rw [List.cons_append, pySplitNL_cons_nl, pySplitNL_cons_nl, ih]
      cases h : pySplitNL t with
      | nil => exact absurd h (pySplitNL_ne_nil t)
      | cons l ls => simp [glueLines]
    · rw [List.cons_append, pySplitNL_cons _ _ hc, pySplitNL_cons _ _ hc, ih]
      cases h : pySplitNL t with
      | nil => exact absurd h (pySplitNL_ne_nil t)
      | cons l ls =>
        cases ls with
        | nil =>
          cases hb : pySplitNL b with
          | nil => exact absurd hb (pySplitNL_ne_nil b)
          | cons y ys => simp [glueLines]
        | cons l2 ls2 => simp [glueLines]

theorem pySplitNL_no_nl (s : PyStr) (h : '\n' ∉ s) : pySplitNL s = [s] := by
  induction s with
  | nil => rfl
  | cons c t ih =>
    have hc : c ≠ '\n' := fun h0 => h (h0 ▸ List.mem_cons_self c t)
    have ht : '\n' ∉ t := fun h0 => h (List.mem_cons_of_mem c h0)
    unfold pySplitNL
    simp only [hc, if_false]
    rw [ih ht]

/-! ### C2: the templating-then-parsing round trip -/

/-- C2 counterexample: the record `cruiseCE` (all required keys present,
`name` the string `"true"`) is accepted by `ingest_cruise`, yet parsing the
formatted description yields the boolean `true` under `Name`, not the
emitted string `"true"` — the coercion chain destroys verbatim recovery. -/
theorem cruise_roundtrip_counterexample :
    roundTrip cruiseCE (chars "Name") = .ok (some (.bool true)) ∧
    some (Value.bool true) ≠ some (.str (chars "true")) ∧
    ingest_cruise cruiseCE = .ok [cruiseDoc (chars "true") (chars "R1")
      (chars "Southampton") (chars "2025-01-01") (chars "Dover")
      (chars "2025-01-08") (chars "Aurora") (chars "PO")] :=
  ⟨by decide, by decide, by decide⟩

/-- A line that strips to nothing leaves the parser state unchanged. -/
theorem processLine_blank (st : ParseState) (l : PyStr) (h : pyStrip l = []) :
    processLine st l = st := by
  simp [processLine, h]

/-- Looking up the key just stored returns the stored value. -/
theorem dictGet_dictSet_same (d : Parsed) (k : PyStr) (v : Value) :
    dictGet (dictSet d k v) k = some v := by
  induction d with
  | nil => simp [dictSet, dictGet]
  | cons kv rest ih =>
    obtain ⟨k2, v2⟩ := kv
    by_cases hk : k2 = k
    · rw [dictSet, if_pos hk, dictGet, if_pos rfl]
    · rw [dictSet, if_neg hk, dictGet, if_neg hk]
      exact ih

/-- Storing under one key leaves lookups of a different key unchanged. -/
theorem dictGet_dictSet_other (d : Parsed) (k k2 : PyStr) (v : Value) (h : k ≠ k2) :
    dictGet (dictSet d k v) k2 = dictGet d k2 := by
  induction d with
  | nil => simp [dictSet, dictGet, h]
  | cons kv rest ih =>
    obtain ⟨ka, va⟩ := kv
    by_cases hk : ka = k
    · rw [dictSet, if_pos hk, dictGet, if_neg (hk ▸ h), dictGet, if_neg (hk ▸ h)]
    · rw [dictSet, if_neg hk, dictGet, dictGet]
      by_cases hq : ka = k2
      · rw [if_pos hq, if_pos hq]
      · rw [if_neg hq, if_neg hq, ih]

/-- A continuation line only ever touches the tracked key, so lookups of any
other key pass through. -/
theorem continueLine_dictGet_other2 (st : ParseState) (line k ck : PyStr)
    (hck : st.currentKey = some ck) (hne : ck ≠ k) :
    dictGet (continueLine st line).data k = dictGet st.data k := by
  by_cases h0 : ck = []
  · simp [continueLine, hck, h0]
  · cases hd : dictGet st.data ck with
    | none => simp [continueLine, hck, h0, hd]
    | some w =>
      cases w with
      | str s =>
        rw [continueLine_append st line ck s hck h0 hd]
        exact dictGet_dictSet_other _ _ _ _ hne
      | bool b => simp [continueLine, hck, h0, hd]
      | int n => simp [continueLine, hck, h0, hd]
      | float q => simp [continueLine, hck, h0, hd]
      | list l2 => simp [continueLine, hck, h0, hd]

/-- Two consecutive continuation lines over a state with tracked key `ck`
leave lookups of any other key unchanged. -/
theorem continueLine2_dictGet_other (d : Parsed) (l1 l2 k ck : PyStr) (hne : ck ≠ k) :
    dictGet (continueLine (continueLine ⟨d, some ck⟩ l1) l2).data k = dictGet d k := by
  rw [continueLine_dictGet_other2 (continueLine ⟨d, some ck⟩ l1) l2 k ck
        (by rw [continueLine_currentKey]) hne,
      continueLine_dictGet_other2 ⟨d, some ck⟩ l1 k ck rfl hne]

/-- A right-stripped, non-empty tail keeps a doubly-nested append
right-strip-invariant. -/
theorem pyStripRight_self_append_2 (a b v : PyStr) (hv : pyStripRight v = v) (hne : v ≠ []) :
    pyStripRight (a ++ (b ++ v)) = a ++ (b ++ v) := by
  have h := pyStripRight_self_append (a ++ b) v hv hne
  simpa [List.append_assoc] using h

/-- A right-stripped, non-empty tail keeps a triply-nested append
right-strip-invariant. -/
theorem pyStripRight_self_append_3 (a b c v : PyStr) (hv : pyStripRight v = v) (hne : v ≠ []) :
    pyStripRight (a ++ (b ++ (c ++ v))) = a ++ (b ++ (c ++ v)) := by
  have h := pyStripRight_self_append (a ++ (b ++ c)) v hv hne
  simpa [List.append_assoc] using h

/-- Stripping a template line `pre ++ v` with an indented prefix and an
already-right-stripped value only strips the prefix indentation. -/
theorem pyStrip_line (pre pre' v : PyStr) (hpre : pyStripLeft pre = pre') (hne : pre' ≠ [])
    (hv : pyStripRight v = v) (hvne : v ≠ []) :
    pyStrip (pre ++ v) = pre' ++ v := by
  unfold pyStrip
  rw [pyStripLeft_append_ne _ _ (by rw [hpre]; exact hne), hpre]
  exact pyStripRight_self_append _ _ hv hvne

set_option maxHeartbeats 4000000 in
/-- Parsing the description emitted for a `cruiseSym` record recovers the four
coercion-inert scalar fields verbatim and the decorated `Duration` field as
the string `"7 nights"`. -/
theorem cruiseDoc_parse (n r sa so ea eo sh opr : PyStr)
    (hn : InertVal n) (hr : InertVal r) (hsh : InertVal sh) (hopr : InertVal opr)
    (hsa : TameVal sa) (hso : TameVal so) (hea : TameVal ea) (heo : TameVal eo) :
    [chars "Name", chars "Reference", chars "Ship", chars "Operator",
     chars "Duration"].map
      (dictGet (parse_description (cruiseDoc n r sa so ea eo sh opr))) =
    [some (.str n), some (.str r), some (.str sh), some (.str opr),
     some (.str (chars "7 nights"))] := by
  have stn : pyStrip n = n := by unfold pyStrip; rw [hn.1.1, hn.1.2]
  have str2 : pyStrip r = r := by unfold pyStrip; rw [hr.1.1, hr.1.2]
  have stsh : pyStrip sh = sh := by unfold pyStrip; rw [hsh.1.1, hsh.1.2]
  have stopr : pyStrip opr = opr := by unfold pyStrip; rw [hopr.1.1, hopr.1.2]
  have honso : (chars " on " : PyStr) ++ so ≠ [] := by
    intro h0
    exact (by decide : (chars " on " : PyStr) ≠ []) (List.append_eq_nil.mp h0).1
  have honeo : (chars " on " : PyStr) ++ eo ≠ [] := by
    intro h0
    exact (by decide : (chars " on " : PyStr) ≠ []) (List.append_eq_nil.mp h0).1
  have hso9 : pyStripRight (sa ++ (chars " on " ++ so)) = sa ++ (chars " on " ++ so) :=
    pyStripRight_self_append_2 sa (chars " on ") so hso.1.2 hso.2.1
  have hea10 : pyStripRight (ea ++ (chars " on " ++ eo)) = ea ++ (chars " on " ++ eo) :=
    pyStripRight_self_append_2 ea (chars " on ") eo heo.1.2 heo.2.1
  have hne9 : sa ++ (chars " on " ++ so) ≠ [] := by
    intro h0
    exact honso (List.append_eq_nil.mp h0).2
  have hne10 : ea ++ (chars " on " ++ eo) ≠ [] := by
    intro h0
    exact honeo (List.append_eq_nil.mp h0).2
  have sL2 : pySplitFirst (chars ": ") (pyStrip (chars "        Name: " ++ n)) =
      some (chars "Name", n) := by
    rw [pyStrip_line (chars "        Name: ") (chars "Name: ") n (by decide) (by decide)
          hn.1.2 hn.2.1,
        show (chars ": ") = ([':', ' '] : PyStr) from rfl]
    show pySplitFirst [':', ' '] (chars "Name" ++ ':' :: ' ' :: n) = some (chars "Name", n)
    exact splitFirst_colon_space (chars "Name") n (by decide)
  have sL3 : pySplitFirst (chars ": ") (pyStrip (chars "        Reference: " ++ r)) =
      some (chars "Reference", r) := by
    rw [pyStrip_line (chars "        Reference: ") (chars "Reference: ") r (by decide)
          (by decide) hr.1.2 hr.2.1,
        show (chars ": ") = ([':', ' '] : PyStr) from rfl]
    show pySplitFirst [':', ' '] (chars "Reference" ++ ':' :: ' ' :: r) =
      some (chars "Reference", r)
    exact splitFirst_colon_space (chars "Reference") r (by decide)
  have sL9 : pySplitFirst (chars ": ")
      (pyStrip (chars "        Departure: From " ++ (sa ++ (chars " on " ++ so)))) =
      some (chars "Departure", chars "From " ++ (sa ++ (chars " on " ++ so))) := by
    rw [pyStrip_line (chars "        Departure: From ") (chars "Departure: From ")
          (sa ++ (chars " on " ++ so)) (by decide) (by decide) hso9 hne9,
        show (chars ": ") = ([':', ' '] : PyStr) from rfl]
    show pySplitFirst [':', ' ']
        (chars "Departure" ++ ':' :: ' ' :: (chars "From " ++ (sa ++ (chars " on " ++ so)))) =
      some (chars "Departure", chars "From " ++ (sa ++ (chars " on " ++ so)))
    exact splitFirst_colon_space (chars "Departure") _ (by decide)
  have sL10 : pySplitFirst (chars ": ")
      (pyStrip (chars "        Return: To " ++ (ea ++ (chars " on " ++ eo)))) =
      some (chars "Return", chars "To " ++ (ea ++ (chars " on " ++ eo))) := by
    rw [pyStrip_line (chars "        Return: To ") (chars "Return: To ")
          (ea ++ (chars " on " ++ eo)) (by decide) (by decide) hea10 hne10,
        show (chars ": ") = ([':', ' '] : PyStr) from rfl]
    show pySplitFirst [':', ' ']
        (chars "Return" ++ ':' :: ' ' :: (chars "To " ++ (ea ++ (chars " on " ++ eo)))) =
      some (chars "Return", chars "To " ++ (ea ++ (chars " on " ++ eo)))
    exact splitFirst_colon_space (chars "Return") _ (by decide)
  have sL15 : pySplitFirst (chars ": ") (pyStrip (chars "        Ship: " ++ sh)) =
      some (chars "Ship", sh) := by
    rw [pyStrip_line (chars "        Ship: ") (chars "Ship: ") sh (by decide) (by decide)
          hsh.1.2 hsh.2.1,
        show (chars ": ") = ([':', ' '] : PyStr) from rfl]
    show pySplitFirst [':', ' '] (chars "Ship" ++ ':' :: ' ' :: sh) = some (chars "Ship", sh)
    exact splitFirst_colon_space (chars "Ship") sh (by decide)
  have sL16 : pySplitFirst (chars ": ") (pyStrip (chars "        Operator: " ++ opr)) =
      some (chars "Operator", opr) := by
    rw [pyStrip_line (chars "        Operator: ") (chars "Operator: ") opr (by decide)
          (by decide) hopr.1.2 hopr.2.1,
        show (chars ": ") = ([':', ' '] : PyStr) from rfl]
    show pySplitFirst [':', ' '] (chars "Operator" ++ ':' :: ' ' :: opr) =
      some (chars "Operator", opr)
    exact splitFirst_colon_space (chars "Operator") opr (by decide)
  unfold parse_description cruiseDoc pyStrip pyStripLeft
  simp only [List.append_assoc, show (chars "" : PyStr) = [] from rfl,
    List.append_nil, List.nil_append]
  rw [dropWhile_append_ne _ _ _ (by decide)]
  rw [show (chars "\n        CRUISE ITINERARY\n        Name: ").dropWhile pyIsSpace
        = chars "CRUISE ITINERARY\n        Name: " from by decide]
  unfold pyStripRight
  simp only [List.reverse_append, List.reverse_reverse, List.append_assoc]
  rw [dropWhile_append_nil _ _ _ (by decide)]
  rw [dropWhile_append_ne _ _ _ (by decide)]
  rw [show ((chars "\n\n        Departure Airports: ").reverse.dropWhile pyIsSpace)
        = (chars "\n\n        Departure Airports:").reverse from by decide]
  simp only [List.reverse_append, List.reverse_reverse, List.append_assoc]
  simp only [pySplitNL_glue]
  rw [pySplitNL_no_nl n hn.2.2.1, pySplitNL_no_nl r hr.2.2.1,
      pySplitNL_no_nl sa hsa.2.2, pySplitNL_no_nl so hso.2.2,
      pySplitNL_no_nl ea hea.2.2, pySplitNL_no_nl eo heo.2.2,
      pySplitNL_no_nl sh hsh.2.2.1, pySplitNL_no_nl opr hopr.2.2.1]
  simp only [
    show pySplitNL (chars "CRUISE ITINERARY\n        Name: ") =
      [chars "CRUISE ITINERARY", chars "        Name: "] from by decide,
    show pySplitNL (chars "\n        Reference: ") =
      [[], chars "        Reference: "] from by decide,
    show pySplitNL (chars "\n        Duration: ") =
      [[], chars "        Duration: "] from by decide,
    show pySplitNL (chars "7") = [chars "7"] from by decide,
    show pySplitNL (chars " nights\n        Type: ") =
      [chars " nights", chars "        Type: "] from by decide,
    show pySplitNL (chars "Ocean") = [chars "Ocean"] from by decide,
    show pySplitNL (chars "\n        Regions: ") =
      [[], chars "        Regions: "] from by decide,
    show pySplitNL (chars "Med") = [chars "Med"] from by decide,
    show pySplitNL (chars "\n\n        Schedule:\n        Departure: From ") =
      [[], [], chars "        Schedule:", chars "        Departure: From "] from by decide,
    show pySplitNL (chars " on ") = [chars " on "] from by decide,
    show pySplitNL (chars "\n        Return: To ") =
      [[], chars "        Return: To "] from by decide,
    show pySplitNL (chars "\n        Vacation Days: ") =
      [[], chars "        Vacation Days: "] from by decide,
    show pySplitNL (chars "\n        Hotel Nights: ") =
      [[], chars "        Hotel Nights: "] from by decide,
    show pySplitNL (chars "0") = [chars "0"] from by decide,
    show pySplitNL (chars "\n        Post Cruise Stay: ") =
      [[], chars "        Post Cruise Stay: "] from by decide,
    show pySplitNL (chars "\n\n        Ship: ") =
      [[], [], chars "        Ship: "] from by decide,
    show pySplitNL (chars "\n        Operator: ") =
      [[], chars "        Operator: "] from by decide,
    show pySplitNL (chars "\n        Rating: ") =
      [[], chars "        Rating: "] from by decide,
    show pySplitNL (chars "\n\n        Pricing:\n        Cruise Only From: $") =
      [[], [], chars "        Pricing:", chars "        Cruise Only From: $"] from by decide,
    show pySplitNL (chars "\n        Fly Cruise From: $") =
      [[], chars "        Fly Cruise From: $"] from by decide,
    show pySplitNL (chars "\n        Inside Cabins From: $") =
      [[], chars "        Inside Cabins From: $"] from by decide,
    show pySplitNL (chars "\n        Outside Cabins From: $") =
      [[], chars "        Outside Cabins From: $"] from by decide,
    show pySplitNL (chars "\n        Balcony Cabins From: $") =
      [[], chars "        Balcony Cabins From: $"] from by decide,
    show pySplitNL (chars "\n        Suites From: $") =
      [[], chars "        Suites From: $"] from by decide,
    show pySplitNL (chars "\n\n        ") =
      [[], [], chars "        "] from by decide,
    show pySplitNL (chars "Itinerary Details: Not available.\n") =
      [chars "Itinerary Details: Not available.", []] from by decide,
    show pySplitNL (chars "\n        Available Fares:\n        ") =
      [[], chars "        Available Fares:", chars "        "] from by decide,
    show pySplitNL (chars "\n\n        Departure Airports:") =
      [[], [], chars "        Departure Airports:"] from by decide]
  simp only [glueLines, List.append_nil, List.nil_append]
  simp only [List.foldl_cons, List.foldl_nil]
  rw [processLine_header_plain _ (chars "        Name: " ++ n) (chars "Name") n sL2
        (by decide)]
  rw [processLine_header_plain _ (chars "        Reference: " ++ r) (chars "Reference") r sL3
        (by decide)]
  rw [processLine_header_plain _ (chars "        Departure: From " ++ (sa ++ (chars " on " ++ so)))
        (chars "Departure") (chars "From " ++ (sa ++ (chars " on " ++ so))) sL9 (by decide)]
  rw [processLine_header_plain _ (chars "        Return: To " ++ (ea ++ (chars " on " ++ eo)))
        (chars "Return") (chars "To " ++ (ea ++ (chars " on " ++ eo))) sL10 (by decide)]
  rw [processLine_header_plain _ (chars "        Ship: " ++ sh) (chars "Ship") sh sL15
        (by decide)]
  rw [processLine_header_plain _ (chars "        Operator: " ++ opr) (chars "Operator") opr sL16
        (by decide)]
  rw [processLine_header_plain _ (chars "        Duration: " ++ (chars "7" ++ chars " nights"))
        (chars "Duration") (chars "7" ++ chars " nights") (by decide) (by decide)]
  rw [processLine_header_plain _ (chars "        Type: " ++ chars "Ocean")
        (chars "Type") (chars "Ocean") (by decide) (by decide)]
  rw [processLine_header_plain _ (chars "        Regions: " ++ chars "Med")
        (chars "Regions") (chars "Med") (by decide) (by decide)]
  rw [processLine_header_plain _ (chars "        Hotel Nights: " ++ chars "0")
        (chars "Hotel Nights") (chars "0") (by decide) (by decide)]
  rw [processLine_header_plain _ (chars "        Post Cruise Stay: " ++ chars "0")
        (chars "Post Cruise Stay") (chars "0") (by decide) (by decide)]
  rw [processLine_header_plain _ (chars "        Cruise Only From: $")
        (chars "Cruise Only From") (chars "$") (by decide) (by decide)]
  rw [processLine_header_plain _ (chars "        Fly Cruise From: $")
        (chars "Fly Cruise From") (chars "$") (by decide) (by decide)]
  rw [processLine_header_plain _ (chars "        Inside Cabins From: $")
        (chars "Inside Cabins From") (chars "$") (by decide) (by decide)]
  rw [processLine_header_plain _ (chars "        Outside Cabins From: $")
        (chars "Outside Cabins From") (chars "$") (by decide) (by decide)]
  rw [processLine_header_plain _ (chars "        Balcony Cabins From: $")
        (chars "Balcony Cabins From") (chars "$") (by decide) (by decide)]
  rw [processLine_header_plain _ (chars "        Suites From: $")
        (chars "Suites From") (chars "$") (by decide) (by decide)]
  rw [processLine_header_multiline _ (chars "        " ++ chars "Itinerary Details: Not available.")
        (chars "Itinerary Details") (chars "Not available.") (by decide) (by decide)]
  rw [processLine_blank _ ([] : PyStr) rfl, processLine_blank _ ([] : PyStr) rfl,
      processLine_blank _ ([] : PyStr) rfl, processLine_blank _ ([] : PyStr) rfl,
      processLine_blank _ ([] : PyStr) rfl, processLine_blank _ ([] : PyStr) rfl]
  rw [processLine_blank _ (chars "        ") (by decide)]
  rw [processLine_cont _ (chars "CRUISE ITINERARY") (by decide) (by decide)]
  rw [processLine_cont _ (chars "        Schedule:") (by decide) (by decide)]
  rw [processLine_cont _ (chars "        Vacation Days: ") (by decide) (by decide)]
  rw [processLine_cont _ (chars "        Rating: ") (by decide) (by decide)]
  rw [processLine_cont _ (chars "        Pricing:") (by decide) (by decide)]
  rw [processLine_cont _ (chars "        Available Fares:") (by decide) (by decide)]
  rw [processLine_cont _ (chars "        Departure Airports:") (by decide) (by decide)]
  rw [continueLine_none _ (pyStrip (chars "CRUISE ITINERARY")) rfl]
  rw [continueLine_none _ (pyStrip (chars "        Schedule:")) rfl]
  rw [continueLine_none _ (pyStrip (chars "        Vacation Days: ")) rfl]
  rw [continueLine_none _ (pyStrip (chars "        Rating: ")) rfl]
  rw [continueLine_none _ (pyStrip (chars "        Pricing:")) rfl]
  simp only [List.map_cons, List.map_nil]
  rw [continueLine2_dictGet_other]
  rw [continueLine2_dictGet_other]
  rw [continueLine2_dictGet_other]
  rw [continueLine2_dictGet_other]
  rw [continueLine2_dictGet_other]
  simp (disch := decide) only [
    show pyStrip (chars "Name") = chars "Name" from by decide,
    show pyStrip (chars "Reference") = chars "Reference" from by decide,
    show pyStrip (chars "Duration") = chars "Duration" from by decide,
    show pyStrip (chars "Type") = chars "Type" from by decide,
    show pyStrip (chars "Regions") = chars "Regions" from by decide,
    show pyStrip (chars "Departure") = chars "Departure" from by decide,
    show pyStrip (chars "Return") = chars "Return" from by decide,
    show pyStrip (chars "Hotel Nights") = chars "Hotel Nights" from by decide,
    show pyStrip (chars "Post Cruise Stay") = chars "Post Cruise Stay" from by decide,
    show pyStrip (chars "Ship") = chars "Ship" from by decide,
    show pyStrip (chars "Operator") = chars "Operator" from by decide,
    show pyStrip (chars "Cruise Only From") = chars "Cruise Only From" from by decide,
    show pyStrip (chars "Fly Cruise From") = chars "Fly Cruise From" from by decide,
    show pyStrip (chars "Inside Cabins From") = chars "Inside Cabins From" from by decide,
    show pyStrip (chars "Outside Cabins From") = chars "Outside Cabins From" from by decide,
    show pyStrip (chars "Balcony Cabins From") = chars "Balcony Cabins From" from by decide,
    show pyStrip (chars "Suites From") = chars "Suites From" from by decide,
    show pyStrip (chars "Itinerary Details") = chars "Itinerary Details" from by decide,
    dictGet_dictSet_other, dictGet_dictSet_same,
    stn, str2, stsh, stopr, hn.2.2.2, hr.2.2.2, hsh.2.2.2, hopr.2.2.2,
    show coerceValue (pyStrip (chars "7" ++ chars " nights")) = Value.str (chars "7 nights")
      from by decide]
  all_goals decide

/-- C2 (amended): the unconditional verbatim round trip is false — see the
counterexample, where the emitted `name` `"true"` parses back as the boolean
`true` — but a conditional form holds: for every `cruiseSym` record whose
scalar string fields are stripped, non-empty, single-line, and (for the
standalone-header fields `Name`, `Reference`, `Ship`, `Operator`)
coercion-inert, `ingest_cruise` formats exactly `cruiseDoc` and the
templating-then-parsing round trip recovers those four fields verbatim,
while the decorated scalar `Duration` comes back only with the template's
decoration, as the string `"7 nights"`, not as the emitted number `7`. -/
theorem cruise_roundtrip_amended (n r sa so ea eo sh opr : PyStr)
    (hn : InertVal n) (hr : InertVal r) (hsh : InertVal sh) (hopr : InertVal opr)
    (hsa : TameVal sa) (hso : TameVal so) (hea : TameVal ea) (heo : TameVal eo) :
    ingest_cruise (cruiseSym n r sa so ea eo sh opr) =
      .ok [cruiseDoc n r sa so ea eo sh opr] ∧
    roundTrip (cruiseSym n r sa so ea eo sh opr) (chars "Name") =
      .ok (some (.str n)) ∧
    roundTrip (cruiseSym n r sa so ea eo sh opr) (chars "Reference") =
      .ok (some (.str r)) ∧
    roundTrip (cruiseSym n r sa so ea eo sh opr) (chars "Ship") =
      .ok (some (.str sh)) ∧
    roundTrip (cruiseSym n r sa so ea eo sh opr) (chars "Operator") =
      .ok (some (.str opr)) ∧
    roundTrip (cruiseSym n r sa so ea eo sh opr) (chars "Duration") =
      .ok (some (.str (chars "7 nights"))) := by
  have h := cruiseDoc_parse n r sa so ea eo sh opr hn hr hsh hopr hsa hso hea heo
  simp only [List.map_cons, List.map_nil, List.cons.injEq, and_true] at h
  obtain ⟨h1, h2, h3, h4, h5⟩ := h
  have hfmt : formatCruise (cruiseSym n r sa so ea eo sh opr) =
      .ok (cruiseDoc n r sa so ea eo sh opr) := rfl
  refine ⟨rfl, ?_, ?_, ?_, ?_, ?_⟩
  · rw [roundTrip, hfmt]; exact congrArg Except.ok h1
  · rw [roundTrip, hfmt]; exact congrArg Except.ok h2
  · rw [roundTrip, hfmt]; exact congrArg Except.ok h3
  · rw [roundTrip, hfmt]; exact congrArg Except.ok h4
  · rw [roundTrip, hfmt]; exact congrArg Except.ok h5

/-- Witness for the amended C2 theorem at a concrete record. -/
theorem cruise_roundtrip_amended_witness :
    (InertVal (chars "Alpha") ∧ InertVal (chars "R1") ∧
     InertVal (chars "Aurora") ∧ InertVal (chars "PO")) ∧
    (TameVal (chars "Southampton") ∧ TameVal (chars "2025-01-01") ∧
     TameVal (chars "Dover") ∧ TameVal (chars "2025-01-08")) ∧
    (ingest_cruise (cruiseSym (chars "Alpha") (chars "R1") (chars "Southampton")
        (chars "2025-01-01") (chars "Dover") (chars "2025-01-08")
        (chars "Aurora") (chars "PO")) =
      .ok [cruiseDoc (chars "Alpha") (chars "R1") (chars "Southampton")
        (chars "2025-01-01") (chars "Dover") (chars "2025-01-08")
        (chars "Aurora") (chars "PO")] ∧
     roundTrip (cruiseSym (chars "Alpha") (chars "R1") (chars "Southampton")
        (chars "2025-01-01") (chars "Dover") (chars "2025-01-08")
        (chars "Aurora") (chars "PO")) (chars "Name") =
      .ok (some (.str (chars "Alpha"))) ∧
     roundTrip (cruiseSym (chars "Alpha") (chars "R1") (chars "Southampton")
        (chars "2025-01-01") (chars "Dover") (chars "2025-01-08")
        (chars "Aurora") (chars "PO")) (chars "Reference") =
      .ok (some (.str (chars "R1"))) ∧
     roundTrip (cruiseSym (chars "Alpha") (chars "R1") (chars "Southampton")
        (chars "2025-01-01") (chars "Dover") (chars "2025-01-08")
        (chars "Aurora") (chars "PO")) (chars "Ship") =
      .ok (some (.str (chars "Aurora"))) ∧
     roundTrip (cruiseSym (chars "Alpha") (chars "R1") (chars "Southampton")
        (chars "2025-01-01") (chars "Dover") (chars "2025-01-08")
        (chars "Aurora") (chars "PO")) (chars "Operator") =
      .ok (some (.str (chars "PO"))) ∧
     roundTrip (cruiseSym (chars "Alpha") (chars "R1") (chars "Southampton")
        (chars "2025-01-01") (chars "Dover") (chars "2025-01-08")
        (chars "Aurora") (chars "PO")) (chars "Duration") =
      .ok (some (.str (chars "7 nights")))) :=
  ⟨⟨by decide, by decide, by decide, by decide⟩,
   ⟨by decide, by decide, by decide, by decide⟩,
   cruise_roundtrip_amended (chars "Alpha") (chars "R1") (chars "Southampton")
     (chars "2025-01-01") (chars "Dover") (chars "2025-01-08") (chars "Aurora")
     (chars "PO") (by decide) (by decide) (by decide) (by decide)
     (by decide) (by decide) (by decide) (by decide)⟩

end Cruise
